import Mathlib

/-!
# Vulkan bootstrap (`Vukan_Triangle/Main.cpp`): embedding and verification

The program is a single linear setup sequence around the Vulkan and GLFW
APIs.  The embedding below keeps that shape:

* the host (window system, loader, driver) is a value of `World`: what each
  API query answers;
* the members of `Application` are a record, threaded through every member
  function; every call also yields the list of its events (`Ret.events`);
* a member function is a state transformer `Exec α` whose outcome is a normal
  return, a thrown `std::exception` (carrying `what()`), or `running` when the
  idle loop has not ended within the evaluation budget;
* range-`for` loops with `break` are structural recursions over the vector.
-/

namespace VulkanTri

/-! ## Constants of the headers and of the source file -/

/-- Dispatchable and non-dispatchable handles and window pointers. -/
abbrev Handle := Nat

/-- The null handle, `VK_NULL_HANDLE` (also `nullptr` for a window). -/
def VK_NULL_HANDLE : Handle := 0

/-- Result codes of the API, `VkResult`. -/
abbrev VkResult := Int

def VK_SUCCESS : VkResult := 0

def VK_ERROR_EXTENSION_NOT_PRESENT : VkResult := -7

def VK_QUEUE_GRAPHICS_BIT : Nat := 1

def VK_FALSE : Nat := 0

def VK_STRUCTURE_TYPE_APPLICATION_INFO : Nat := 0

def VK_STRUCTURE_TYPE_INSTANCE_CREATE_INFO : Nat := 1

def VK_STRUCTURE_TYPE_DEVICE_QUEUE_CREATE_INFO : Nat := 2

def VK_STRUCTURE_TYPE_DEVICE_CREATE_INFO : Nat := 3

def VK_STRUCTURE_TYPE_DEBUG_UTILS_MESSENGER_CREATE_INFO_EXT : Nat := 1000128004

def VK_DEBUG_UTILS_MESSAGE_SEVERITY_VERBOSE_BIT_EXT : Nat := 0x1

def VK_DEBUG_UTILS_MESSAGE_SEVERITY_WARNING_BIT_EXT : Nat := 0x100

def VK_DEBUG_UTILS_MESSAGE_SEVERITY_ERROR_BIT_EXT : Nat := 0x1000

def VK_DEBUG_UTILS_MESSAGE_TYPE_GENERAL_BIT_EXT : Nat := 0x1

def VK_DEBUG_UTILS_MESSAGE_TYPE_VALIDATION_BIT_EXT : Nat := 0x2

def VK_DEBUG_UTILS_MESSAGE_TYPE_PERFORMANCE_BIT_EXT : Nat := 0x4

/-- The header's `VK_MAKE_VERSION(major, minor, patch)`. -/
def VK_MAKE_VERSION (major minor patch : Nat) : Nat :=
  ((major <<< 22) ||| (minor <<< 12) ||| patch) % 2 ^ 32

def VK_API_VERSION_1_0 : Nat := VK_MAKE_VERSION 1 0 0

def VK_EXT_DEBUG_UTILS_EXTENSION_NAME : String := "VK_EXT_debug_utils"

def GLFW_CLIENT_API : Nat := 0x00022001

def GLFW_RESIZABLE : Nat := 0x00020003

def GLFW_NO_API : Nat := 0

def GLFW_FALSE : Nat := 0

def EXIT_SUCCESS : Nat := 0

def EXIT_FAILURE : Nat := 1

def WIDTH : Nat := 800

def HEIGHT : Nat := 600

def validation_layers : List String := ["VK_LAYER_KHRONOS_validation"]

/-- The cast `static_cast<uint32_t>(n)`. -/
def to_uint32 (n : Nat) : Nat := n % 2 ^ 32

/-! ## C strings -/

/-- The characters of a buffer up to its terminating NUL. -/
def c_str : List Char → List Char
  | [] => []
  | c :: cs => if c.toNat = 0 then [] else c :: c_str cs

/-- The library's `strcmp` on two character buffers: the difference of the
first pair of characters that differ, 0 when both end together.  The end of a
list reads as the terminator. -/
def strcmp_chars : List Char → List Char → Int
  | [], [] => 0
  | [], b :: _ => 0 - (b.toNat : Int)
  | a :: _, [] => (a.toNat : Int)
  | a :: as, b :: bs =>
    if a ≠ b then (a.toNat : Int) - (b.toNat : Int)
    else if a.toNat = 0 then 0
    else strcmp_chars as bs

def strcmp (a b : String) : Int := strcmp_chars a.toList b.toList

/-! ## Structures of the API that the program fills or reads -/

/-- The field of `VkLayerProperties` the program reads. -/
structure VkLayerProperties where
  layerName : String
  deriving DecidableEq, Repr

/-- The field of `VkQueueFamilyProperties` the program reads. -/
structure VkQueueFamilyProperties where
  queueFlags : Nat
  deriving DecidableEq, Repr

structure VkApplicationInfo where
  sType : Nat
  pApplicationName : String
  applicationVersion : Nat
  pEngineName : String
  engineVersion : Nat
  apiVersion : Nat
  deriving DecidableEq, Repr

/-- The callback descriptor; `pfnUserCallback` names the callback. -/
structure VkDebugUtilsMessengerCreateInfoEXT where
  sType : Nat
  messageSeverity : Nat
  messageType : Nat
  pfnUserCallback : String
  deriving DecidableEq, Repr

/-- The instance creation request: `pNext = none` is the null pointer. -/
structure VkInstanceCreateInfo where
  sType : Nat
  pApplicationInfo : VkApplicationInfo
  enabledExtensionCount : Nat
  ppEnabledExtensionNames : List String
  enabledLayerCount : Nat
  ppEnabledLayerNames : List String
  pNext : Option VkDebugUtilsMessengerCreateInfoEXT
  deriving DecidableEq, Repr

/-- Queue priorities are kept as rationals: the only value written is 1.0. -/
structure VkDeviceQueueCreateInfo where
  sType : Nat
  queueFamilyIndex : Nat
  queueCount : Nat
  pQueuePriorities : List ℚ
  deriving DecidableEq

/-- The device creation request; `pEnabledFeatures` is the all-zero
`VkPhysicalDeviceFeatures`, kept as the number of features switched on. -/
structure VkDeviceCreateInfo where
  sType : Nat
  pQueueCreateInfos : List VkDeviceQueueCreateInfo
  queueCreateInfoCount : Nat
  pEnabledFeatures : Nat
  enabledExtensionCount : Nat
  enabledLayerCount : Nat
  ppEnabledLayerNames : List String
  deriving DecidableEq

/-- The struct `queue_family_indices`. -/
structure queue_family_indices where
  graphics_family : Option Nat
  deriving DecidableEq, Repr

def queue_family_indices.is_complete (q : queue_family_indices) : Bool :=
  q.graphics_family.isSome

/-! ## The host -/

/-- What the window system, the loader and the driver answer during one run.
Each query is deterministic.  `vkGetInstanceProcAddr name` says whether the
lookup of the command `name` yields a non-null function pointer. -/
structure World where
  glfw_extensions : List String
  window : Handle
  should_close : Nat → Bool
  available_layers : List VkLayerProperties
  create_instance_result : VkResult
  instance_handle : Handle
  vkGetInstanceProcAddr : String → Bool
  create_messenger_result : VkResult
  messenger_handle : Handle
  physical_devices : List Handle
  queue_families : Handle → List VkQueueFamilyProperties
  create_device_result : VkResult
  device_handle : Handle
  queue_handle : Handle

/-- The lookup of the registration entry point is non-null. -/
def World.create_resolved (w : World) : Bool :=
  w.vkGetInstanceProcAddr "vkCreateDebugUtilsMessengerEXT"

/-- The lookup of the entry point that destroys a messenger is non-null. -/
def World.destroy_resolved (w : World) : Bool :=
  w.vkGetInstanceProcAddr "vkDestroyDebugUtilsMessengerEXT"

/-! ## Program state and trace -/

/-- Member functions of `Application` (and the two free helpers). -/
inductive Fn where
  | run
  | init_window
  | init_vulkan
  | main_loop
  | cleanup
  | create_instance
  | setup_debug_messenger
  | get_required_extensions
  | check_validation_layers_support
  | pick_physical_device
  | is_device_suitable
  | find_queue_families
  | create_logical_device
  | Create_debug_utils_messenger_EXT
  | destroy_debug_utils_messenger_EXT
  deriving DecidableEq, Repr

/-- One observable step: entry into a function of the program, a call of the
API with its arguments and answer, or a line written to `std::cerr`. -/
inductive Event where
  | enter (fn : Fn)
  | glfwInit
  | glfwWindowHint (hint value : Nat)
  | glfwCreateWindow (width height : Nat) (title : String) (window : Handle)
  | glfwWindowShouldClose (window : Handle) (answer : Bool)
  | glfwPollEvents
  | glfwDestroyWindow (window : Handle)
  | glfwTerminate
  | glfwGetRequiredInstanceExtensions
  | vkEnumerateInstanceLayerProperties
  | vkCreateInstance (info : VkInstanceCreateInfo) (result : VkResult) (inst : Handle)
  | vkGetInstanceProcAddr (inst : Handle) (name : String) (found : Bool)
  | vkCreateDebugUtilsMessengerEXT (inst : Handle)
      (info : VkDebugUtilsMessengerCreateInfoEXT) (result : VkResult) (messenger : Handle)
  | vkDestroyDebugUtilsMessengerEXT (inst messenger : Handle)
  | vkEnumeratePhysicalDevices (inst : Handle)
  | vkGetPhysicalDeviceQueueFamilyProperties (device : Handle)
  | vkCreateDevice (physical_device : Handle) (info : VkDeviceCreateInfo)
      (result : VkResult) (device : Handle)
  | vkGetDeviceQueue (device : Handle) (family index : Nat) (queue : Handle)
  | vkDestroyDevice (device : Handle)
  | vkDestroyInstance (inst : Handle)
  | cerr (line : String)
  deriving DecidableEq

/-- The data members of `class Application`.  Members without an initializer
are indeterminate until first written; they start as the null handle here. -/
structure Application where
  window : Handle
  vk_instance : Handle
  debug_messenger : Handle
  physical_device : Handle
  device : Handle
  graphics_queue : Handle
  deriving DecidableEq, Repr

/-- The object `Application app;` of `main`. -/
def Application.init : Application :=
  { window := VK_NULL_HANDLE, vk_instance := VK_NULL_HANDLE, debug_messenger := VK_NULL_HANDLE,
    physical_device := VK_NULL_HANDLE, device := VK_NULL_HANDLE,
    graphics_queue := VK_NULL_HANDLE }

/-- How a call ends. -/
inductive Outcome (α : Type) where
  | ok (a : α)
  | threw (what : String)
  | running

def Outcome.is_ok {α : Type} : Outcome α → Bool
  | Outcome.ok _ => true
  | _ => false

/-- What a call leaves behind: how it ended, the members of the object, and
the events of the call in program order. -/
structure Ret (α : Type) where
  outcome : Outcome α
  app : Application
  events : List Event

/-- The same result after the earlier events `before`. -/
def Ret.prepend {α : Type} (r : Ret α) (before : List Event) : Ret α :=
  { r with events := before ++ r.events }

def Exec (α : Type) : Type := Application → Ret α

def Exec.pure {α : Type} (a : α) : Exec α := fun app =>
  { outcome := Outcome.ok a, app := app, events := [] }

/-- Sequencing: the second call runs only when the first returned; a throw
(or an exhausted budget) ends the sequence with the events so far. -/
def Exec.bind {α β : Type} (x : Exec α) (f : α → Exec β) : Exec β := fun app =>
  match x app with
  | { outcome := Outcome.ok a, app := app1, events := ev1 } =>
    { outcome := (f a app1).outcome, app := (f a app1).app,
      events := ev1 ++ (f a app1).events }
  | { outcome := Outcome.threw what, app := app1, events := ev1 } =>
    { outcome := Outcome.threw what, app := app1, events := ev1 }
  | { outcome := Outcome.running, app := app1, events := ev1 } =>
    { outcome := Outcome.running, app := app1, events := ev1 }

instance : Monad Exec where
  pure := Exec.pure
  bind := Exec.bind

/-- Record one event. -/
def emit (e : Event) : Exec Unit := fun app =>
  { outcome := Outcome.ok (), app := app, events := [e] }

/-- The statement `throw std::runtime_error(what)`. -/
def throw_runtime_error {α : Type} (what : String) : Exec α := fun app =>
  { outcome := Outcome.threw what, app := app, events := [] }

def get_app : Exec Application := fun app =>
  { outcome := Outcome.ok app, app := app, events := [] }

def modify_app (f : Application → Application) : Exec Unit := fun app =>
  { outcome := Outcome.ok (), app := f app, events := [] }

/-- The budget ended inside the idle loop. -/
def still_running {α : Type} : Exec α := fun app =>
  { outcome := Outcome.running, app := app, events := [] }

/-- The call `std::optional<uint32_t>::value()`: throws
`std::bad_optional_access` on an empty optional. -/
def optional_value (o : Option Nat) : Exec Nat :=
  match o with
  | some v => Exec.pure v
  | none => throw_runtime_error "bad optional access"

/-! ## The program -/

/-- The free function `Create_debug_utils_messenger_EXT`; its out-pointer is
the member `debug_messenger`. -/
def Create_debug_utils_messenger_EXT (w : World) (inst : Handle)
    (p_create_info : VkDebugUtilsMessengerCreateInfoEXT) : Exec VkResult := do
  emit (Event.enter Fn.Create_debug_utils_messenger_EXT)
  let func := w.vkGetInstanceProcAddr "vkCreateDebugUtilsMessengerEXT"
  emit (Event.vkGetInstanceProcAddr inst "vkCreateDebugUtilsMessengerEXT" func)
  if func then
    emit (Event.vkCreateDebugUtilsMessengerEXT inst p_create_info
      w.create_messenger_result w.messenger_handle)
    modify_app (fun a => { a with debug_messenger := w.messenger_handle })
    pure w.create_messenger_result
  else
    pure VK_ERROR_EXTENSION_NOT_PRESENT

/-- The free function `destroy_debug_utils_messenger_EXT`. -/
def destroy_debug_utils_messenger_EXT (w : World) (inst debug_messenger : Handle) :
    Exec Unit := do
  emit (Event.enter Fn.destroy_debug_utils_messenger_EXT)
  let func := w.vkGetInstanceProcAddr "vkDestroyDebugUtilsMessengerEXT"
  emit (Event.vkGetInstanceProcAddr inst "vkDestroyDebugUtilsMessengerEXT" func)
  if func then
    emit (Event.vkDestroyDebugUtilsMessengerEXT inst debug_messenger)
  else
    pure ()

/-- The static member `debugCallback`: the line it writes to `std::cerr` and
the value it returns.  The driver calls it, not the program. -/
def debugCallback (_message_severity _message_type : Nat) (pMessage : String) :
    String × Nat :=
  ("validation layer: " ++ pMessage, VK_FALSE)

def init_window (w : World) : Exec Unit := do
  emit (Event.enter Fn.init_window)
  emit Event.glfwInit
  emit (Event.glfwWindowHint GLFW_CLIENT_API GLFW_NO_API)
  emit (Event.glfwWindowHint GLFW_RESIZABLE GLFW_FALSE)
  emit (Event.glfwCreateWindow WIDTH HEIGHT "Vulkan" w.window)
  modify_app (fun a => { a with window := w.window })

/-- The loop of `main_loop`; `k` counts the close queries already made. -/
def main_loop_from (w : World) : Nat → Nat → Exec Unit
  | 0, _ => still_running
  | fuel + 1, k => do
    let app ← get_app
    emit (Event.glfwWindowShouldClose app.window (w.should_close k))
    if !(w.should_close k) then
      emit Event.glfwPollEvents
      main_loop_from w fuel (k + 1)
    else
      pure ()

def main_loop (w : World) (fuel : Nat) : Exec Unit := do
  emit (Event.enter Fn.main_loop)
  main_loop_from w fuel 0

def cleanup (enable_validation_layers : Bool) (w : World) : Exec Unit := do
  emit (Event.enter Fn.cleanup)
  let app ← get_app
  emit (Event.vkDestroyDevice app.device)
  if enable_validation_layers then
    destroy_debug_utils_messenger_EXT w app.vk_instance app.debug_messenger
  emit (Event.vkDestroyInstance app.vk_instance)
  emit (Event.glfwDestroyWindow app.window)
  emit Event.glfwTerminate

def populate_debug_messenger_create_info : VkDebugUtilsMessengerCreateInfoEXT :=
  { sType := VK_STRUCTURE_TYPE_DEBUG_UTILS_MESSENGER_CREATE_INFO_EXT
    messageSeverity := VK_DEBUG_UTILS_MESSAGE_SEVERITY_VERBOSE_BIT_EXT |||
      VK_DEBUG_UTILS_MESSAGE_SEVERITY_WARNING_BIT_EXT |||
      VK_DEBUG_UTILS_MESSAGE_SEVERITY_ERROR_BIT_EXT
    messageType := VK_DEBUG_UTILS_MESSAGE_TYPE_GENERAL_BIT_EXT |||
      VK_DEBUG_UTILS_MESSAGE_TYPE_VALIDATION_BIT_EXT |||
      VK_DEBUG_UTILS_MESSAGE_TYPE_PERFORMANCE_BIT_EXT
    pfnUserCallback := "debugCallback" }

def setup_debug_messenger (enable_validation_layers : Bool) (w : World) : Exec Unit := do
  emit (Event.enter Fn.setup_debug_messenger)
  if !enable_validation_layers then
    pure ()
  else
    let create_info := populate_debug_messenger_create_info
    let app ← get_app
    let result ← Create_debug_utils_messenger_EXT w app.vk_instance create_info
    if result ≠ VK_SUCCESS then
      throw_runtime_error "failed to set up debug messenger!"

def get_required_extensions (enable_validation_layers : Bool) (w : World) :
    Exec (List String) := do
  emit (Event.enter Fn.get_required_extensions)
  emit Event.glfwGetRequiredInstanceExtensions
  let extensions := w.glfw_extensions
  if enable_validation_layers then
    pure (extensions ++ [VK_EXT_DEBUG_UTILS_EXTENSION_NAME])
  else
    pure extensions

/-- The inner loop of `check_validation_layers_support`: `layer_found`. -/
def layer_found (layer_name : String) : List VkLayerProperties → Bool
  | [] => false
  | layer_properties :: rest =>
    if strcmp layer_name layer_properties.layerName = 0 then true
    else layer_found layer_name rest

/-- The outer loop of `check_validation_layers_support`. -/
def all_layers_found (available_layers : List VkLayerProperties) : List String → Bool
  | [] => true
  | layer_name :: rest =>
    if !(layer_found layer_name available_layers) then false
    else all_layers_found available_layers rest

def check_validation_layers_support (w : World) : Exec Bool := do
  emit (Event.enter Fn.check_validation_layers_support)
  emit Event.vkEnumerateInstanceLayerProperties
  let available_layers := w.available_layers
  emit Event.vkEnumerateInstanceLayerProperties
  pure (all_layers_found available_layers validation_layers)

def create_instance (enable_validation_layers : Bool) (w : World) : Exec Unit := do
  emit (Event.enter Fn.create_instance)
  if enable_validation_layers then
    let supported ← check_validation_layers_support w
    if !supported then
      throw_runtime_error "validation layers requested, but not available!"
  let app_info : VkApplicationInfo :=
    { sType := VK_STRUCTURE_TYPE_APPLICATION_INFO
      pApplicationName := "Hello Triangle"
      applicationVersion := VK_MAKE_VERSION 1 0 0
      pEngineName := "No Engine"
      engineVersion := VK_MAKE_VERSION 1 0 0
      apiVersion := VK_API_VERSION_1_0 }
  let extensions ← get_required_extensions enable_validation_layers w
  let create_info : VkInstanceCreateInfo :=
    if enable_validation_layers then
      { sType := VK_STRUCTURE_TYPE_INSTANCE_CREATE_INFO
        pApplicationInfo := app_info
        enabledExtensionCount := to_uint32 extensions.length
        ppEnabledExtensionNames := extensions
        enabledLayerCount := to_uint32 validation_layers.length
        ppEnabledLayerNames := validation_layers
        pNext := some populate_debug_messenger_create_info }
    else
      { sType := VK_STRUCTURE_TYPE_INSTANCE_CREATE_INFO
        pApplicationInfo := app_info
        enabledExtensionCount := to_uint32 extensions.length
        ppEnabledExtensionNames := extensions
        enabledLayerCount := 0
        ppEnabledLayerNames := []
        pNext := none }
  emit (Event.vkCreateInstance create_info w.create_instance_result w.instance_handle)
  if w.create_instance_result ≠ VK_SUCCESS then
    throw_runtime_error "failed to create instance!"
  modify_app (fun a => { a with vk_instance := w.instance_handle })

/-- The loop of `find_queue_families`.  The counter `i` is kept as in the
source, where it is incremented and never read. -/
def find_queue_families_loop :
    List VkQueueFamilyProperties → queue_family_indices → Nat → queue_family_indices
  | [], indices, _ => indices
  | queue_family :: rest, indices, i =>
    let indices : queue_family_indices :=
      if queue_family.queueFlags &&& VK_QUEUE_GRAPHICS_BIT ≠ 0 then
        { indices with graphics_family := some 1 }
      else indices
    if indices.is_complete then indices
    else find_queue_families_loop rest indices (i + 1)

def find_queue_families (w : World) (device : Handle) : Exec queue_family_indices := do
  emit (Event.enter Fn.find_queue_families)
  emit (Event.vkGetPhysicalDeviceQueueFamilyProperties device)
  let queue_familes := w.queue_families device
  emit (Event.vkGetPhysicalDeviceQueueFamilyProperties device)
  pure (find_queue_families_loop queue_familes { graphics_family := none } 0)

def is_device_suitable (w : World) (device : Handle) : Exec Bool := do
  emit (Event.enter Fn.is_device_suitable)
  let indices ← find_queue_families w device
  pure indices.is_complete

/-- The loop of `pick_physical_device` over the enumerated devices. -/
def pick_loop (w : World) : List Handle → Exec Unit
  | [] => pure ()
  | device :: rest => do
    let suitable ← is_device_suitable w device
    if suitable then
      modify_app (fun a => { a with physical_device := device })
    else
      pick_loop w rest

def pick_physical_device (w : World) : Exec Unit := do
  emit (Event.enter Fn.pick_physical_device)
  let app ← get_app
  emit (Event.vkEnumeratePhysicalDevices app.vk_instance)
  let device_cnt := w.physical_devices.length
  if device_cnt = 0 then
    throw_runtime_error "failed to find GPUs with Vulkan supports!"
  emit (Event.vkEnumeratePhysicalDevices app.vk_instance)
  let devices := w.physical_devices
  pick_loop w devices
  let app ← get_app
  if app.physical_device = VK_NULL_HANDLE then
    throw_runtime_error "failed to find a suitable GPU!"

def create_logical_device (enable_validation_layers : Bool) (w : World) : Exec Unit := do
  emit (Event.enter Fn.create_logical_device)
  let app ← get_app
  let indices ← find_queue_families w app.physical_device
  let queue_priority : ℚ := 1
  let family ← optional_value indices.graphics_family
  let queue_create_info : VkDeviceQueueCreateInfo :=
    { sType := VK_STRUCTURE_TYPE_DEVICE_QUEUE_CREATE_INFO
      queueFamilyIndex := family
      queueCount := 1
      pQueuePriorities := [queue_priority] }
  let create_info : VkDeviceCreateInfo :=
    { sType := VK_STRUCTURE_TYPE_DEVICE_CREATE_INFO
      pQueueCreateInfos := [queue_create_info]
      queueCreateInfoCount := 1
      pEnabledFeatures := 0
      enabledExtensionCount := 0
      enabledLayerCount :=
        if enable_validation_layers then to_uint32 validation_layers.length else 0
      ppEnabledLayerNames := if enable_validation_layers then validation_layers else [] }
  emit (Event.vkCreateDevice app.physical_device create_info
    w.create_device_result w.device_handle)
  if w.create_device_result ≠ VK_SUCCESS then
    throw_runtime_error "failed to create logical device!"
  modify_app (fun a => { a with device := w.device_handle })
  let family ← optional_value indices.graphics_family
  emit (Event.vkGetDeviceQueue w.device_handle family 0 w.queue_handle)
  modify_app (fun a => { a with graphics_queue := w.queue_handle })

def init_vulkan (enable_validation_layers : Bool) (w : World) : Exec Unit := do
  emit (Event.enter Fn.init_vulkan)
  create_instance enable_validation_layers w
  setup_debug_messenger enable_validation_layers w
  pick_physical_device w
  create_logical_device enable_validation_layers w

def run (enable_validation_layers : Bool) (w : World) (fuel : Nat) : Exec Unit := do
  emit (Event.enter Fn.run)
  init_window w
  init_vulkan enable_validation_layers w
  main_loop w fuel
  cleanup enable_validation_layers w

/-- The function `main`: its return value, with the events of the whole run;
`running` when the window has not asked to close within the budget. -/
def main (enable_validation_layers : Bool) (w : World) (fuel : Nat) : Ret Nat :=
  match run enable_validation_layers w fuel Application.init with
  | { outcome := Outcome.ok _, app := app, events := ev } =>
    { outcome := Outcome.ok EXIT_SUCCESS, app := app, events := ev }
  | { outcome := Outcome.threw what, app := app, events := ev } =>
    { outcome := Outcome.ok EXIT_FAILURE, app := app, events := ev ++ [Event.cerr what] }
  | { outcome := Outcome.running, app := app, events := ev } =>
    { outcome := Outcome.running, app := app, events := ev }

/-! ## Specification vocabulary -/

/-- The graphics capability bit (bit 0 of `queueFlags`) is set. -/
def graphics_capable (q : VkQueueFamilyProperties) : Bool := q.queueFlags.testBit 0

/-- The device has at least one queue family with the graphics bit set. -/
def has_graphics_family (w : World) (device : Handle) : Bool :=
  (w.queue_families device).any graphics_capable

/-- The devices handed to `vkGetPhysicalDeviceQueueFamilyProperties`, in
order, one entry per call. -/
def queried_devices : List Event → List Handle
  | [] => []
  | Event.vkGetPhysicalDeviceQueueFamilyProperties d :: rest => d :: queried_devices rest
  | _ :: rest => queried_devices rest

/-- The event is an entry into the function `fn`. -/
def entering (fn : Fn) : Event → Bool
  | Event.enter g => decide (g = fn)
  | _ => false

/-- How many times the function `fn` was entered. -/
def count_enter (fn : Fn) (events : List Event) : Nat := events.countP (entering fn)

/-- Every event of every call of `x` passes the test `p`. -/
def events_pass (p : Event → Bool) {α : Type} (x : Exec α) : Prop :=
  ∀ app, (x app).events.all p = true

/-- The devices up to and including the first one with a graphics family:
each is queried twice (once for the count, once for the data). -/
def inspected (w : World) : List Handle → List Handle
  | [] => []
  | d :: rest => d :: d :: (if has_graphics_family w d then [] else inspected w rest)

/-- The events of the device loop of `pick_physical_device`. -/
def pick_loop_events (w : World) : List Handle → List Event
  | [] => []
  | d :: rest =>
    [Event.enter Fn.is_device_suitable, Event.enter Fn.find_queue_families,
      Event.vkGetPhysicalDeviceQueueFamilyProperties d,
      Event.vkGetPhysicalDeviceQueueFamilyProperties d] ++
    (if has_graphics_family w d then [] else pick_loop_events w rest)

/-- The member `physical_device` after the device loop. -/
def picked (w : World) (devices : List Handle) (app : Application) : Application :=
  { app with
    physical_device := (devices.find? (has_graphics_family w)).getD app.physical_device }

/-- The application description that `create_instance` fills in. -/
def hello_triangle_info : VkApplicationInfo :=
  { sType := VK_STRUCTURE_TYPE_APPLICATION_INFO
    pApplicationName := "Hello Triangle"
    applicationVersion := VK_MAKE_VERSION 1 0 0
    pEngineName := "No Engine"
    engineVersion := VK_MAKE_VERSION 1 0 0
    apiVersion := VK_API_VERSION_1_0 }

/-- The instance creation request of a build without diagnostics. -/
def instance_request_off (w : World) : VkInstanceCreateInfo :=
  { sType := VK_STRUCTURE_TYPE_INSTANCE_CREATE_INFO
    pApplicationInfo := hello_triangle_info
    enabledExtensionCount := to_uint32 w.glfw_extensions.length
    ppEnabledExtensionNames := w.glfw_extensions
    enabledLayerCount := 0
    ppEnabledLayerNames := []
    pNext := none }

/-- The instance creation request of a build with diagnostics. -/
def instance_request_on (w : World) : VkInstanceCreateInfo :=
  { sType := VK_STRUCTURE_TYPE_INSTANCE_CREATE_INFO
    pApplicationInfo := hello_triangle_info
    enabledExtensionCount :=
      to_uint32 (w.glfw_extensions ++ [VK_EXT_DEBUG_UTILS_EXTENSION_NAME]).length
    ppEnabledExtensionNames := w.glfw_extensions ++ [VK_EXT_DEBUG_UTILS_EXTENSION_NAME]
    enabledLayerCount := to_uint32 validation_layers.length
    ppEnabledLayerNames := validation_layers
    pNext := some populate_debug_messenger_create_info }

/-- The device creation request for queue family `family`. -/
def device_request (enable_validation_layers : Bool) (family : Nat) : VkDeviceCreateInfo :=
  { sType := VK_STRUCTURE_TYPE_DEVICE_CREATE_INFO
    pQueueCreateInfos :=
      [{ sType := VK_STRUCTURE_TYPE_DEVICE_QUEUE_CREATE_INFO
         queueFamilyIndex := family
         queueCount := 1
         pQueuePriorities := [1] }]
    queueCreateInfoCount := 1
    pEnabledFeatures := 0
    enabledExtensionCount := 0
    enabledLayerCount :=
      if enable_validation_layers then to_uint32 validation_layers.length else 0
    ppEnabledLayerNames := if enable_validation_layers then validation_layers else [] }

/-- The events of the idle loop when the window asks to close at query `n`
counted from query `k`: `n` rounds of query and poll, then the last query. -/
def idle_events (window : Handle) : Nat → List Event
  | 0 => [Event.glfwWindowShouldClose window true]
  | n + 1 =>
    Event.glfwWindowShouldClose window false :: Event.glfwPollEvents :: idle_events window n

/-- The events of `cleanup`. -/
def cleanup_events (enable_validation_layers : Bool) (w : World) (app : Application) :
    List Event :=
  [Event.enter Fn.cleanup, Event.vkDestroyDevice app.device] ++
  (if enable_validation_layers then
    [Event.enter Fn.destroy_debug_utils_messenger_EXT,
      Event.vkGetInstanceProcAddr app.vk_instance "vkDestroyDebugUtilsMessengerEXT"
        w.destroy_resolved] ++
    (if w.destroy_resolved then
      [Event.vkDestroyDebugUtilsMessengerEXT app.vk_instance app.debug_messenger] else [])
   else []) ++
  [Event.vkDestroyInstance app.vk_instance, Event.glfwDestroyWindow app.window,
    Event.glfwTerminate]

/-- Every handle of a list twice in a row: the two calls of a count-then-fill
query. -/
def each_twice : List Handle → List Handle
  | [] => []
  | d :: rest => d :: d :: each_twice rest

/-- Index `i` names a queue family of the list with the graphics bit set. -/
def is_graphics_index (qs : List VkQueueFamilyProperties) (i : Nat) : Bool :=
  match qs[i]? with
  | some q => graphics_capable q
  | none => false

/-- The queue requests of every `vkCreateDevice` call, as pairs of family
index and queue count. -/
def device_queue_requests : List Event → List (List (Nat × Nat))
  | [] => []
  | Event.vkCreateDevice _ info _ _ :: rest =>
    info.pQueueCreateInfos.map (fun q => (q.queueFamilyIndex, q.queueCount)) ::
      device_queue_requests rest
  | _ :: rest => device_queue_requests rest

/-- The family index and queue index of every `vkGetDeviceQueue` call. -/
def queue_retrievals : List Event → List (Nat × Nat)
  | [] => []
  | Event.vkGetDeviceQueue _ family index _ :: rest => (family, index) :: queue_retrievals rest
  | _ :: rest => queue_retrievals rest

/-- Two names are the same C string: equal up to the terminating NUL. -/
def same_name (a b : String) : Prop := c_str a.toList = c_str b.toList

/-- The creation requests of every `vkCreateInstance` call. -/
def instance_requests : List Event → List VkInstanceCreateInfo
  | [] => []
  | Event.vkCreateInstance info _ _ :: rest => info :: instance_requests rest
  | _ :: rest => instance_requests rest

/-- The number of `vkCreateDevice` calls. -/
def device_creation_calls (events : List Event) : Nat :=
  (device_queue_requests events).length

/-- The events that window creation, `init_vulkan` and the idle loop can
produce in a build with the given diagnostics flag: no entry into `cleanup`,
no destroy call, nothing written to `std::cerr`; the creation requests are the
ones of that build; the diagnostics calls occur only when enabled. -/
def setup_event (enable_validation_layers : Bool) (w : World) : Event → Bool
  | Event.enter fn =>
    decide (fn ≠ Fn.cleanup) && decide (fn ≠ Fn.destroy_debug_utils_messenger_EXT) &&
      (enable_validation_layers ||
        (decide (fn ≠ Fn.Create_debug_utils_messenger_EXT) &&
          decide (fn ≠ Fn.check_validation_layers_support)))
  | Event.vkCreateInstance info _ _ =>
    decide (info =
      if enable_validation_layers then instance_request_on w else instance_request_off w)
  | Event.vkCreateDevice _ info _ _ => decide (info = device_request enable_validation_layers 1)
  | Event.vkCreateDebugUtilsMessengerEXT _ _ _ _ => enable_validation_layers
  | Event.vkGetInstanceProcAddr _ _ _ => enable_validation_layers
  | Event.vkEnumerateInstanceLayerProperties => enable_validation_layers
  | Event.vkDestroyDevice _ => false
  | Event.vkDestroyDebugUtilsMessengerEXT _ _ => false
  | Event.vkDestroyInstance _ => false
  | Event.glfwDestroyWindow _ => false
  | Event.glfwTerminate => false
  | Event.cerr _ => false
  | _ => true

/-- The event carries no trace of diagnostics: an instance request without
layers, without a chained descriptor and with exactly the extensions the
window system asks for; a device request without layers; not a lookup of, an
entry into, or a call of the messenger registration. -/
def diagnostics_free (w : World) : Event → Bool
  | Event.vkCreateInstance info _ _ =>
    decide (info.enabledLayerCount = 0) && info.pNext.isNone &&
      decide (info.ppEnabledLayerNames = []) &&
      decide (info.ppEnabledExtensionNames = w.glfw_extensions)
  | Event.vkCreateDevice _ info _ _ =>
    decide (info.enabledLayerCount = 0) && decide (info.ppEnabledLayerNames = [])
  | Event.vkCreateDebugUtilsMessengerEXT _ _ _ _ => false
  | Event.vkDestroyDebugUtilsMessengerEXT _ _ => false
  | Event.vkGetInstanceProcAddr _ _ _ => false
  | Event.enter fn =>
    decide (fn ≠ Fn.Create_debug_utils_messenger_EXT) &&
      decide (fn ≠ Fn.destroy_debug_utils_messenger_EXT)
  | _ => true

/-- The event is not a write to `std::cerr`. -/
def not_cerr : Event → Bool
  | Event.cerr _ => false
  | _ => true

/-- The lines written to `std::cerr`. -/
def stderr_lines : List Event → List String
  | [] => []
  | Event.cerr line :: rest => line :: stderr_lines rest
  | _ :: rest => stderr_lines rest

/-- A resource the program owns. -/
inductive Resource where
  | window (h : Handle)
  | vk_instance (h : Handle)
  | debug_messenger (h : Handle)
  | device (h : Handle)
  deriving DecidableEq, Repr

/-- The resources created, in order: every creation call that succeeded (a
non-null window, a `VK_SUCCESS` result). -/
def created : List Event → List Resource
  | [] => []
  | Event.glfwCreateWindow _ _ _ h :: rest =>
    (if h ≠ VK_NULL_HANDLE then [Resource.window h] else []) ++ created rest
  | Event.vkCreateInstance _ r h :: rest =>
    (if r = VK_SUCCESS then [Resource.vk_instance h] else []) ++ created rest
  | Event.vkCreateDebugUtilsMessengerEXT _ _ r h :: rest =>
    (if r = VK_SUCCESS then [Resource.debug_messenger h] else []) ++ created rest
  | Event.vkCreateDevice _ _ r h :: rest =>
    (if r = VK_SUCCESS then [Resource.device h] else []) ++ created rest
  | _ :: rest => created rest

/-- The resources destroyed, in order: one entry per destroy call. -/
def destroyed : List Event → List Resource
  | [] => []
  | Event.glfwDestroyWindow h :: rest => Resource.window h :: destroyed rest
  | Event.vkDestroyInstance h :: rest => Resource.vk_instance h :: destroyed rest
  | Event.vkDestroyDebugUtilsMessengerEXT _ h :: rest =>
    Resource.debug_messenger h :: destroyed rest
  | Event.vkDestroyDevice h :: rest => Resource.device h :: destroyed rest
  | _ :: rest => destroyed rest

/-- The events of `init_vulkan` when every step succeeds and device `d` is
the one picked. -/
def init_vulkan_events (enable_validation_layers : Bool) (w : World) (d : Handle) :
    List Event :=
  [Event.enter Fn.init_vulkan, Event.enter Fn.create_instance] ++
  (if enable_validation_layers then
    [Event.enter Fn.check_validation_layers_support,
      Event.vkEnumerateInstanceLayerProperties, Event.vkEnumerateInstanceLayerProperties]
   else []) ++
  [Event.enter Fn.get_required_extensions, Event.glfwGetRequiredInstanceExtensions,
    Event.vkCreateInstance
      (if enable_validation_layers then instance_request_on w else instance_request_off w)
      VK_SUCCESS w.instance_handle,
    Event.enter Fn.setup_debug_messenger] ++
  (if enable_validation_layers then
    [Event.enter Fn.Create_debug_utils_messenger_EXT,
      Event.vkGetInstanceProcAddr w.instance_handle "vkCreateDebugUtilsMessengerEXT" true,
      Event.vkCreateDebugUtilsMessengerEXT w.instance_handle
        populate_debug_messenger_create_info VK_SUCCESS w.messenger_handle]
   else []) ++
  [Event.enter Fn.pick_physical_device, Event.vkEnumeratePhysicalDevices w.instance_handle,
    Event.vkEnumeratePhysicalDevices w.instance_handle] ++
  pick_loop_events w w.physical_devices ++
  [Event.enter Fn.create_logical_device, Event.enter Fn.find_queue_families,
    Event.vkGetPhysicalDeviceQueueFamilyProperties d,
    Event.vkGetPhysicalDeviceQueueFamilyProperties d,
    Event.vkCreateDevice d (device_request enable_validation_layers 1) VK_SUCCESS
      w.device_handle,
    Event.vkGetDeviceQueue w.device_handle 1 0 w.queue_handle]

/-- The conditions on the host under which every step of `init_vulkan`
succeeds, with `d` the device picked. -/
def setup_succeeds (enable_validation_layers : Bool) (w : World) (d : Handle) : Prop :=
  (enable_validation_layers = true →
    all_layers_found w.available_layers validation_layers = true ∧
    w.create_resolved = true ∧ w.create_messenger_result = VK_SUCCESS) ∧
  w.create_instance_result = VK_SUCCESS ∧
  w.physical_devices.find? (has_graphics_family w) = some d ∧
  d ≠ VK_NULL_HANDLE ∧
  w.create_device_result = VK_SUCCESS

/-- The members of the object after a setup in which every step succeeded
and device `d` was picked. -/
def app_after_setup (enable_validation_layers : Bool) (w : World) (d : Handle) :
    Application :=
  { window := w.window
    vk_instance := w.instance_handle
    debug_messenger :=
      if enable_validation_layers then w.messenger_handle else VK_NULL_HANDLE
    physical_device := d
    device := w.device_handle
    graphics_queue := w.queue_handle }

/-- The events of `run` up to the end of `init_vulkan`, when every step
succeeds and device `d` is picked. -/
def startup_events (enable_validation_layers : Bool) (w : World) (d : Handle) : List Event :=
  [Event.enter Fn.run, Event.enter Fn.init_window, Event.glfwInit,
    Event.glfwWindowHint GLFW_CLIENT_API GLFW_NO_API,
    Event.glfwWindowHint GLFW_RESIZABLE GLFW_FALSE,
    Event.glfwCreateWindow WIDTH HEIGHT "Vulkan" w.window] ++
  init_vulkan_events enable_validation_layers w d

/-! ## Example hosts -/

/-- A host with a window, the validation layer, the debug-utils commands and
three devices: device 21 has a compute-only family, device 22 a graphics
family, device 23 a graphics family.  The window asks to close at the third
query. -/
def host_three : World :=
  { glfw_extensions := ["VK_KHR_surface", "VK_KHR_xcb_surface"]
    window := 7
    should_close := fun k => decide (2 ≤ k)
    available_layers := [{ layerName := "VK_LAYER_KHRONOS_validation" }]
    create_instance_result := VK_SUCCESS
    instance_handle := 11
    vkGetInstanceProcAddr := fun name =>
      decide (name ∈ ["vkCreateDebugUtilsMessengerEXT", "vkDestroyDebugUtilsMessengerEXT"])
    create_messenger_result := VK_SUCCESS
    messenger_handle := 13
    physical_devices := [21, 22, 23]
    queue_families := fun d =>
      if d = 21 then [{ queueFlags := 2 }]
      else [{ queueFlags := 15 }, { queueFlags := 4 }]
    create_device_result := VK_SUCCESS
    device_handle := 31
    queue_handle := 41 }

/-- The host `host_three` without any physical device. -/
def host_no_device : World := { host_three with physical_devices := [] }

/-- The host `host_three` whose loader does not resolve the debug-utils
commands. -/
def host_no_debug_utils : World := { host_three with vkGetInstanceProcAddr := fun _ => false }

/-- The host `host_three` whose loader resolves the registration entry point
and not the entry point that destroys a messenger. -/
def host_no_destroy : World :=
  { host_three with
    vkGetInstanceProcAddr := fun name => decide (name = "vkCreateDebugUtilsMessengerEXT") }

/-- The host `host_three` without the validation layer. -/
def host_no_layer : World :=
  { host_three with available_layers := [{ layerName := "VK_LAYER_LUNARG_api_dump" }] }

/-! ## Basic facts about sequencing -/

theorem bind_apply {α β : Type} (x : Exec α) (f : α → Exec β) (app : Application) :
    (x >>= f) app = Exec.bind x f app := rfl

theorem pure_apply {α : Type} (v : α) (app : Application) :
    (pure v : Exec α) app = { outcome := Outcome.ok v, app := app, events := [] } := rfl

theorem queried_devices_append (xs ys : List Event) :
    queried_devices (xs ++ ys) = queried_devices xs ++ queried_devices ys := by
  induction xs with
  | nil => rfl
  | cons e xs ih => cases e <;> simp [queried_devices, ih]

theorem device_queue_requests_append (xs ys : List Event) :
    device_queue_requests (xs ++ ys) = device_queue_requests xs ++ device_queue_requests ys := by
  induction xs with
  | nil => rfl
  | cons e xs ih => cases e <;> simp [device_queue_requests, ih]

theorem queue_retrievals_append (xs ys : List Event) :
    queue_retrievals (xs ++ ys) = queue_retrievals xs ++ queue_retrievals ys := by
  induction xs with
  | nil => rfl
  | cons e xs ih => cases e <;> simp [queue_retrievals, ih]

theorem instance_requests_append (xs ys : List Event) :
    instance_requests (xs ++ ys) = instance_requests xs ++ instance_requests ys := by
  induction xs with
  | nil => rfl
  | cons e xs ih => cases e <;> simp [instance_requests, ih]

theorem count_enter_append (fn : Fn) (xs ys : List Event) :
    count_enter fn (xs ++ ys) = count_enter fn xs + count_enter fn ys := by
  simp [count_enter, List.countP_append]

theorem count_enter_of_all (fn : Fn) (xs : List Event)
    (h : xs.all (fun e => !entering fn e) = true) : count_enter fn xs = 0 := by
  simpa [count_enter, List.countP_eq_zero] using h

theorem bind_of_ok {α β : Type} (x : Exec α) (f : α → Exec β) (app : Application) (v : α)
    (h : (x app).outcome = Outcome.ok v) :
    Exec.bind x f app =
      { outcome := (f v (x app).app).outcome, app := (f v (x app).app).app,
        events := (x app).events ++ (f v (x app).app).events } := by
  unfold Exec.bind
  revert h
  cases x app with
  | mk o a e =>
    cases o with
    | ok u => intro h; injection h with h; subst h; rfl
    | threw m => intro h; exact absurd h (by simp)
    | running => intro h; exact absurd h (by simp)

theorem bind_of_threw {α β : Type} (x : Exec α) (f : α → Exec β) (app : Application)
    (what : String) (h : (x app).outcome = Outcome.threw what) :
    Exec.bind x f app =
      { outcome := Outcome.threw what, app := (x app).app, events := (x app).events } := by
  unfold Exec.bind
  revert h
  cases x app with
  | mk o a e => cases o <;> simp

theorem bind_of_running {α β : Type} (x : Exec α) (f : α → Exec β) (app : Application)
    (h : (x app).outcome = Outcome.running) :
    Exec.bind x f app =
      { outcome := Outcome.running, app := (x app).app, events := (x app).events } := by
  unfold Exec.bind
  revert h
  cases x app with
  | mk o a e => cases o <;> simp

theorem bind_ok_inv {α β : Type} (x : Exec α) (f : α → Exec β) (app : Application) (v : β)
    (h : ((x >>= f) app).outcome = Outcome.ok v) :
    ∃ u, (x app).outcome = Outcome.ok u ∧ (f u (x app).app).outcome = Outcome.ok v := by
  rw [bind_apply] at h
  cases ho : (x app).outcome with
  | ok u =>
    rw [bind_of_ok x f app u ho] at h
    exact ⟨u, rfl, h⟩
  | threw what =>
    rw [bind_of_threw x f app what ho] at h
    exact absurd h (by simp)
  | running =>
    rw [bind_of_running x f app ho] at h
    exact absurd h (by simp)

theorem emit_app (e : Event) (app : Application) : (emit e app).app = app := rfl

theorem events_pass_bind (p : Event → Bool) {α β : Type} (x : Exec α) (f : α → Exec β)
    (hx : events_pass p x) (hf : ∀ v, events_pass p (f v)) : events_pass p (x >>= f) := by
  intro app
  have h1 := hx app
  rw [bind_apply]
  cases ho : (x app).outcome with
  | ok v =>
    rw [bind_of_ok x f app v ho]
    simp only [List.all_append, h1, hf v (x app).app, Bool.and_self]
  | threw what => rw [bind_of_threw x f app what ho]; exact h1
  | running => rw [bind_of_running x f app ho]; exact h1

theorem events_pass_emit (p : Event → Bool) (e : Event) (h : p e = true) :
    events_pass p (emit e) := by
  intro app
  simp [emit, h]

/-! ## Queue families -/

theorem graphics_bit_test (n : Nat) :
    (n &&& VK_QUEUE_GRAPHICS_BIT ≠ 0) ↔ n.testBit 0 = true := by
  unfold VK_QUEUE_GRAPHICS_BIT
  rw [Nat.and_one_is_mod, Nat.testBit_zero]
  have := Nat.mod_two_eq_zero_or_one n
  rcases this with h | h <;> simp [h]

/-- The loop started on an empty optional ends with the constant 1 when some
family has the graphics bit, and with the empty optional otherwise. -/
theorem find_queue_families_loop_eq (qs : List VkQueueFamilyProperties) (i : Nat) :
    find_queue_families_loop qs { graphics_family := none } i =
      { graphics_family := if qs.any graphics_capable then some 1 else none } := by
  induction qs generalizing i with
  | nil => simp [find_queue_families_loop]
  | cons q qs ih =>
    by_cases h : q.queueFlags &&& VK_QUEUE_GRAPHICS_BIT ≠ 0
    · have h2 : graphics_capable q = true := (graphics_bit_test _).1 h
      simp [find_queue_families_loop, h, h2, queue_family_indices.is_complete]
    · have h2 : graphics_capable q = false := by
        rw [Bool.eq_false_iff]
        exact fun hc => h ((graphics_bit_test _).2 hc)
      have h3 : q.queueFlags &&& VK_QUEUE_GRAPHICS_BIT = 0 := by simpa using h
      simp [find_queue_families_loop, h3, h2, queue_family_indices.is_complete, ih]

theorem find_queue_families_eq (w : World) (device : Handle) (app : Application) :
    find_queue_families w device app =
      { outcome := Outcome.ok
          { graphics_family := if has_graphics_family w device then some 1 else none }
        app := app
        events := [Event.enter Fn.find_queue_families,
          Event.vkGetPhysicalDeviceQueueFamilyProperties device,
          Event.vkGetPhysicalDeviceQueueFamilyProperties device] } := by
  unfold has_graphics_family
  rw [← find_queue_families_loop_eq (w.queue_families device) 0]
  rfl

theorem is_device_suitable_eq (w : World) (device : Handle) (app : Application) :
    is_device_suitable w device app =
      { outcome := Outcome.ok (has_graphics_family w device)
        app := app
        events := [Event.enter Fn.is_device_suitable, Event.enter Fn.find_queue_families,
          Event.vkGetPhysicalDeviceQueueFamilyProperties device,
          Event.vkGetPhysicalDeviceQueueFamilyProperties device] } := by
  have h := find_queue_families_eq w device app
  simp only [is_device_suitable, bind_apply, Exec.bind, emit, h, pure_apply]
  cases hg : has_graphics_family w device <;>
    simp [queue_family_indices.is_complete]

/-! ## Device selection -/

theorem pick_loop_eq (w : World) (devices : List Handle) (app : Application) :
    pick_loop w devices app =
      { outcome := Outcome.ok (), app := picked w devices app,
        events := pick_loop_events w devices } := by
  induction devices with
  | nil => rfl
  | cons d rest ih =>
    have h := is_device_suitable_eq w d app
    simp only [pick_loop, bind_apply, Exec.bind, h]
    cases hg : has_graphics_family w d
    · simp [ih, pick_loop_events, picked, hg, List.find?]
    · simp [modify_app, pick_loop_events, picked, hg, List.find?]

theorem pick_physical_device_eq (w : World) (app : Application) :
    pick_physical_device w app =
      if w.physical_devices = [] then
        { outcome := Outcome.threw "failed to find GPUs with Vulkan supports!", app := app,
          events := [Event.enter Fn.pick_physical_device,
            Event.vkEnumeratePhysicalDevices app.vk_instance] }
      else
        { outcome :=
            if (picked w w.physical_devices app).physical_device = VK_NULL_HANDLE then
              Outcome.threw "failed to find a suitable GPU!"
            else Outcome.ok ()
          app := picked w w.physical_devices app
          events := [Event.enter Fn.pick_physical_device,
            Event.vkEnumeratePhysicalDevices app.vk_instance,
            Event.vkEnumeratePhysicalDevices app.vk_instance] ++
            pick_loop_events w w.physical_devices } := by
  by_cases h : w.physical_devices = []
  · simp [pick_physical_device, bind_apply, Exec.bind, emit, get_app, throw_runtime_error, h]
  · have hl := pick_loop_eq w w.physical_devices app
    simp only [pick_physical_device, bind_apply, Exec.bind, emit, get_app, List.length_eq_zero,
      h, if_false, hl, pure_apply]
    by_cases hp : (picked w w.physical_devices app).physical_device = VK_NULL_HANDLE
    · simp [hp, throw_runtime_error]
    · simp [hp, pure_apply]

theorem queried_pick_loop_events (w : World) (devices : List Handle) :
    queried_devices (pick_loop_events w devices) = inspected w devices := by
  induction devices with
  | nil => rfl
  | cons d rest ih =>
    cases hg : has_graphics_family w d <;>
      simp [pick_loop_events, inspected, queried_devices, hg, ih]

/-! ## Diagnostics -/

theorem proc_addr_create (w : World) :
    w.vkGetInstanceProcAddr "vkCreateDebugUtilsMessengerEXT" = w.create_resolved := rfl

theorem proc_addr_destroy (w : World) :
    w.vkGetInstanceProcAddr "vkDestroyDebugUtilsMessengerEXT" = w.destroy_resolved := rfl

theorem Create_debug_utils_messenger_EXT_eq (w : World) (inst : Handle)
    (info : VkDebugUtilsMessengerCreateInfoEXT) (app : Application) :
    Create_debug_utils_messenger_EXT w inst info app =
      if w.create_resolved then
        { outcome := Outcome.ok w.create_messenger_result
          app := { app with debug_messenger := w.messenger_handle }
          events := [Event.enter Fn.Create_debug_utils_messenger_EXT,
            Event.vkGetInstanceProcAddr inst "vkCreateDebugUtilsMessengerEXT" true,
            Event.vkCreateDebugUtilsMessengerEXT inst info w.create_messenger_result
              w.messenger_handle] }
      else
        { outcome := Outcome.ok VK_ERROR_EXTENSION_NOT_PRESENT
          app := app
          events := [Event.enter Fn.Create_debug_utils_messenger_EXT,
            Event.vkGetInstanceProcAddr inst "vkCreateDebugUtilsMessengerEXT" false] } := by
  cases h : w.create_resolved <;>
    simp [Create_debug_utils_messenger_EXT, bind_apply, Exec.bind, emit, modify_app, pure_apply,
      proc_addr_create, h]

theorem destroy_debug_utils_messenger_EXT_eq (w : World) (inst messenger : Handle)
    (app : Application) :
    destroy_debug_utils_messenger_EXT w inst messenger app =
      { outcome := Outcome.ok ()
        app := app
        events := [Event.enter Fn.destroy_debug_utils_messenger_EXT,
          Event.vkGetInstanceProcAddr inst "vkDestroyDebugUtilsMessengerEXT"
            w.destroy_resolved] ++
          (if w.destroy_resolved then
            [Event.vkDestroyDebugUtilsMessengerEXT inst messenger] else []) } := by
  cases h : w.destroy_resolved <;>
    simp [destroy_debug_utils_messenger_EXT, bind_apply, Exec.bind, emit, pure_apply,
      proc_addr_destroy, h]

theorem setup_debug_messenger_off (w : World) (app : Application) :
    setup_debug_messenger false w app =
      { outcome := Outcome.ok (), app := app,
        events := [Event.enter Fn.setup_debug_messenger] } := rfl

theorem setup_debug_messenger_on (w : World) (app : Application) :
    setup_debug_messenger true w app =
      if w.create_resolved then
        { outcome := if w.create_messenger_result = VK_SUCCESS then Outcome.ok ()
            else Outcome.threw "failed to set up debug messenger!"
          app := { app with debug_messenger := w.messenger_handle }
          events := [Event.enter Fn.setup_debug_messenger,
            Event.enter Fn.Create_debug_utils_messenger_EXT,
            Event.vkGetInstanceProcAddr app.vk_instance "vkCreateDebugUtilsMessengerEXT" true,
            Event.vkCreateDebugUtilsMessengerEXT app.vk_instance
              populate_debug_messenger_create_info w.create_messenger_result
              w.messenger_handle] }
      else
        { outcome := Outcome.threw "failed to set up debug messenger!"
          app := app
          events := [Event.enter Fn.setup_debug_messenger,
            Event.enter Fn.Create_debug_utils_messenger_EXT,
            Event.vkGetInstanceProcAddr app.vk_instance "vkCreateDebugUtilsMessengerEXT"
              false] } := by
  have h := Create_debug_utils_messenger_EXT_eq w app.vk_instance
    populate_debug_messenger_create_info app
  simp only [setup_debug_messenger, bind_apply, Exec.bind, emit, get_app, Bool.not_true,
    Bool.false_eq_true, if_false, h]
  cases hl : w.create_resolved
  · simp [VK_ERROR_EXTENSION_NOT_PRESENT, VK_SUCCESS, throw_runtime_error]
  · by_cases hr : w.create_messenger_result = VK_SUCCESS
    · simp [hr, pure_apply]
    · simp [hr, throw_runtime_error]

/-! ## Instance creation -/

theorem check_validation_layers_support_eq (w : World) (app : Application) :
    check_validation_layers_support w app =
      { outcome := Outcome.ok (all_layers_found w.available_layers validation_layers)
        app := app
        events := [Event.enter Fn.check_validation_layers_support,
          Event.vkEnumerateInstanceLayerProperties,
          Event.vkEnumerateInstanceLayerProperties] } := rfl

theorem create_instance_off (w : World) (app : Application) :
    create_instance false w app =
      { outcome := if w.create_instance_result = VK_SUCCESS then Outcome.ok ()
          else Outcome.threw "failed to create instance!"
        app := if w.create_instance_result = VK_SUCCESS then
          { app with vk_instance := w.instance_handle } else app
        events := [Event.enter Fn.create_instance, Event.enter Fn.get_required_extensions,
          Event.glfwGetRequiredInstanceExtensions,
          Event.vkCreateInstance (instance_request_off w) w.create_instance_result
            w.instance_handle] } := by
  by_cases hr : w.create_instance_result = VK_SUCCESS <;>
    simp [create_instance, bind_apply, Exec.bind, emit, pure_apply, get_required_extensions,
      throw_runtime_error, modify_app, instance_request_off, hello_triangle_info, hr]

theorem create_instance_on (w : World) (app : Application) :
    create_instance true w app =
      if all_layers_found w.available_layers validation_layers then
        { outcome := if w.create_instance_result = VK_SUCCESS then Outcome.ok ()
            else Outcome.threw "failed to create instance!"
          app := if w.create_instance_result = VK_SUCCESS then
            { app with vk_instance := w.instance_handle } else app
          events := [Event.enter Fn.create_instance,
            Event.enter Fn.check_validation_layers_support,
            Event.vkEnumerateInstanceLayerProperties,
            Event.vkEnumerateInstanceLayerProperties,
            Event.enter Fn.get_required_extensions,
            Event.glfwGetRequiredInstanceExtensions,
            Event.vkCreateInstance (instance_request_on w) w.create_instance_result
              w.instance_handle] }
      else
        { outcome := Outcome.threw "validation layers requested, but not available!"
          app := app
          events := [Event.enter Fn.create_instance,
            Event.enter Fn.check_validation_layers_support,
            Event.vkEnumerateInstanceLayerProperties,
            Event.vkEnumerateInstanceLayerProperties] } := by
  have hc := check_validation_layers_support_eq w app
  cases hs : all_layers_found w.available_layers validation_layers
  · simp [create_instance, bind_apply, Exec.bind, emit, hc, hs, throw_runtime_error]
  · by_cases hr : w.create_instance_result = VK_SUCCESS <;>
      simp [create_instance, bind_apply, Exec.bind, emit, pure_apply, get_required_extensions,
        throw_runtime_error, modify_app, instance_request_on, hello_triangle_info, hr, hc, hs]

/-! ## Logical device -/

theorem create_logical_device_eq (enable : Bool) (w : World) (app : Application) :
    create_logical_device enable w app =
      if has_graphics_family w app.physical_device then
        { outcome := if w.create_device_result = VK_SUCCESS then Outcome.ok ()
            else Outcome.threw "failed to create logical device!"
          app := if w.create_device_result = VK_SUCCESS then
            { app with device := w.device_handle, graphics_queue := w.queue_handle } else app
          events := [Event.enter Fn.create_logical_device, Event.enter Fn.find_queue_families,
            Event.vkGetPhysicalDeviceQueueFamilyProperties app.physical_device,
            Event.vkGetPhysicalDeviceQueueFamilyProperties app.physical_device,
            Event.vkCreateDevice app.physical_device (device_request enable 1)
              w.create_device_result w.device_handle] ++
            (if w.create_device_result = VK_SUCCESS then
              [Event.vkGetDeviceQueue w.device_handle 1 0 w.queue_handle] else []) }
      else
        { outcome := Outcome.threw "bad optional access"
          app := app
          events := [Event.enter Fn.create_logical_device, Event.enter Fn.find_queue_families,
            Event.vkGetPhysicalDeviceQueueFamilyProperties app.physical_device,
            Event.vkGetPhysicalDeviceQueueFamilyProperties app.physical_device] } := by
  have hf := find_queue_families_eq w app.physical_device app
  cases hg : has_graphics_family w app.physical_device
  · simp [create_logical_device, bind_apply, Exec.bind, emit, get_app, hf, hg, optional_value,
      throw_runtime_error]
  · by_cases hr : w.create_device_result = VK_SUCCESS <;>
      simp [create_logical_device, bind_apply, Exec.bind, emit, get_app, hf, hg, optional_value,
        throw_runtime_error, Exec.pure, modify_app, device_request, hr, pure_apply]

/-! ## Window, idle loop and teardown -/

theorem init_window_eq (w : World) (app : Application) :
    init_window w app =
      { outcome := Outcome.ok (), app := { app with window := w.window }
        events := [Event.enter Fn.init_window, Event.glfwInit,
          Event.glfwWindowHint GLFW_CLIENT_API GLFW_NO_API,
          Event.glfwWindowHint GLFW_RESIZABLE GLFW_FALSE,
          Event.glfwCreateWindow WIDTH HEIGHT "Vulkan" w.window] } := rfl

theorem cleanup_eq (enable : Bool) (w : World) (app : Application) :
    cleanup enable w app =
      { outcome := Outcome.ok (), app := app, events := cleanup_events enable w app } := by
  have hd := destroy_debug_utils_messenger_EXT_eq w app.vk_instance app.debug_messenger app
  cases enable <;>
    simp [cleanup, bind_apply, Exec.bind, emit, get_app, pure_apply, cleanup_events, hd]

/-- The idle loop ends once the window asks to close: when query `k + n` is
the first to answer yes, any budget above `n` returns after `n` polls. -/
theorem main_loop_from_closes (w : World) (app : Application) (n : Nat) :
    ∀ (k fuel : Nat), n < fuel → w.should_close (k + n) = true →
      (∀ j, j < n → w.should_close (k + j) = false) →
      main_loop_from w fuel k app =
        { outcome := Outcome.ok (), app := app, events := idle_events app.window n } := by
  induction n with
  | zero =>
    intro k fuel hf hc _
    obtain ⟨f, rfl⟩ : ∃ f, fuel = f + 1 := ⟨fuel - 1, by omega⟩
    have hc0 : w.should_close k = true := by simpa using hc
    simp [main_loop_from, bind_apply, Exec.bind, emit, get_app, pure_apply, hc0, idle_events]
  | succ n ih =>
    intro k fuel hf hc hlt
    obtain ⟨f, rfl⟩ : ∃ f, fuel = f + 1 := ⟨fuel - 1, by omega⟩
    have h0 : w.should_close k = false := by simpa using hlt 0 (Nat.succ_pos n)
    have hrec := ih (k + 1) f (by omega)
      (by rw [← hc]; congr 1; omega)
      (fun j hj => by rw [← hlt (j + 1) (by omega)]; congr 1; omega)
    simp [main_loop_from, bind_apply, Exec.bind, emit, get_app, h0, hrec, idle_events]

/-- Until the window asks to close the idle loop is still running. -/
theorem main_loop_from_running (w : World) (app : Application) (fuel : Nat) :
    ∀ k, (∀ j, j < fuel → w.should_close (k + j) = false) →
      (main_loop_from w fuel k app).outcome = Outcome.running := by
  induction fuel with
  | zero => intro k _; rfl
  | succ f ih =>
    intro k hlt
    have h0 : w.should_close k = false := by simpa using hlt 0 (Nat.succ_pos f)
    have hrec := ih (k + 1) (fun j hj => by rw [← hlt (j + 1) (by omega)]; congr 1; omega)
    simp only [main_loop_from, bind_apply, Exec.bind, emit, get_app, h0, Bool.not_false,
      if_true]
    revert hrec
    cases main_loop_from w f (k + 1) app with
    | mk o a e => cases o <;> simp

/-! ## Layer names -/

theorem char_toNat_inj {a b : Char} (h : a.toNat = b.toNat) : a = b :=
  Char.eq_of_val_eq (UInt32.ext h)

/-- The library comparison answers 0 exactly on equal C strings. -/
theorem strcmp_chars_eq_zero (a : List Char) :
    ∀ b : List Char, strcmp_chars a b = 0 ↔ c_str a = c_str b := by
  induction a with
  | nil =>
    intro b
    cases b with
    | nil => simp [strcmp_chars, c_str]
    | cons b bs =>
      by_cases hb : b.toNat = 0 <;> simp [strcmp_chars, c_str, hb]
  | cons a as ih =>
    intro b
    cases b with
    | nil =>
      by_cases ha : a.toNat = 0 <;> simp [strcmp_chars, c_str, ha]
    | cons b bs =>
      by_cases hab : a = b
      · subst hab
        by_cases ha : a.toNat = 0
        · simp [strcmp_chars, c_str, ha]
        · simp [strcmp_chars, c_str, ha, ih bs]
      · have hn : a.toNat ≠ b.toNat := fun h => hab (char_toNat_inj h)
        have hz : (a.toNat : Int) - (b.toNat : Int) ≠ 0 := by omega
        by_cases ha : a.toNat = 0 <;> by_cases hb : b.toNat = 0 <;>
          simp [strcmp_chars, c_str, ha, hb, hab, hz]

theorem strcmp_eq_zero (a b : String) : strcmp a b = 0 ↔ same_name a b :=
  strcmp_chars_eq_zero a.toList b.toList

theorem layer_found_iff (layer_name : String) (available : List VkLayerProperties) :
    layer_found layer_name available = true ↔
      ∃ lp ∈ available, same_name layer_name lp.layerName := by
  induction available with
  | nil => simp [layer_found]
  | cons lp rest ih =>
    by_cases h : strcmp layer_name lp.layerName = 0
    · have hs := (strcmp_eq_zero _ _).1 h
      simp [layer_found, h, hs]
    · have hs : ¬ same_name layer_name lp.layerName := fun hc => h ((strcmp_eq_zero _ _).2 hc)
      simp [layer_found, h, hs, ih]

theorem all_layers_found_iff (available : List VkLayerProperties) (required : List String) :
    all_layers_found available required = true ↔
      ∀ name ∈ required, ∃ lp ∈ available, same_name name lp.layerName := by
  induction required with
  | nil => simp [all_layers_found]
  | cons name rest ih =>
    cases hf : layer_found name available
    · have hn : ¬ ∃ lp ∈ available, same_name name lp.layerName := by
        rw [← layer_found_iff, hf]; simp
      simp [all_layers_found, hf, hn]
    · have hn : ∃ lp ∈ available, same_name name lp.layerName :=
        (layer_found_iff _ _).1 hf
      simp [all_layers_found, hf, hn, ih]

/-! ## The whole run -/

theorem init_vulkan_on_unresolved (w : World) (app : Application)
    (h : w.create_resolved = false) :
    init_vulkan true w app =
      if all_layers_found w.available_layers validation_layers then
        if w.create_instance_result = VK_SUCCESS then
          { outcome := Outcome.threw "failed to set up debug messenger!"
            app := { app with vk_instance := w.instance_handle }
            events := [Event.enter Fn.init_vulkan, Event.enter Fn.create_instance,
              Event.enter Fn.check_validation_layers_support,
              Event.vkEnumerateInstanceLayerProperties,
              Event.vkEnumerateInstanceLayerProperties,
              Event.enter Fn.get_required_extensions,
              Event.glfwGetRequiredInstanceExtensions,
              Event.vkCreateInstance (instance_request_on w) w.create_instance_result
                w.instance_handle,
              Event.enter Fn.setup_debug_messenger,
              Event.enter Fn.Create_debug_utils_messenger_EXT,
              Event.vkGetInstanceProcAddr w.instance_handle "vkCreateDebugUtilsMessengerEXT"
                false] }
        else
          { outcome := Outcome.threw "failed to create instance!"
            app := app
            events := [Event.enter Fn.init_vulkan, Event.enter Fn.create_instance,
              Event.enter Fn.check_validation_layers_support,
              Event.vkEnumerateInstanceLayerProperties,
              Event.vkEnumerateInstanceLayerProperties,
              Event.enter Fn.get_required_extensions,
              Event.glfwGetRequiredInstanceExtensions,
              Event.vkCreateInstance (instance_request_on w) w.create_instance_result
                w.instance_handle] }
      else
        { outcome := Outcome.threw "validation layers requested, but not available!"
          app := app
          events := [Event.enter Fn.init_vulkan, Event.enter Fn.create_instance,
            Event.enter Fn.check_validation_layers_support,
            Event.vkEnumerateInstanceLayerProperties,
            Event.vkEnumerateInstanceLayerProperties] } := by
  simp only [init_vulkan, bind_apply, Exec.bind, emit, create_instance_on]
  cases hl : all_layers_found w.available_layers validation_layers
  · simp
  · by_cases hr : w.create_instance_result = VK_SUCCESS
    · simp [hr, setup_debug_messenger_on, h]
    · simp [hr]

theorem run_of_setup_threw (enable : Bool) (w : World) (fuel : Nat) (app : Application)
    (what : String)
    (h : (init_vulkan enable w (init_window w app).app).outcome = Outcome.threw what) :
    run enable w fuel app =
      { outcome := Outcome.threw what
        app := (init_vulkan enable w (init_window w app).app).app
        events := Event.enter Fn.run :: ((init_window w app).events ++
          (init_vulkan enable w (init_window w app).app).events) } := by
  simp only [run, bind_apply]
  rw [bind_of_ok (emit _) _ app () rfl]
  simp only [bind_apply, emit_app]
  rw [bind_of_ok (init_window w) _ _ () rfl]
  simp only [bind_apply]
  rw [bind_of_threw _ _ _ what h]
  simp [emit]

theorem run_of_setup_ok (enable : Bool) (w : World) (fuel : Nat) (app : Application)
    (h : (init_vulkan enable w (init_window w app).app).outcome = Outcome.ok ()) :
    run enable w fuel app =
      (Exec.bind (main_loop w fuel) (fun _ => cleanup enable w)
        (init_vulkan enable w (init_window w app).app).app).prepend
        (Event.enter Fn.run :: ((init_window w app).events ++
          (init_vulkan enable w (init_window w app).app).events)) := by
  simp only [run, bind_apply]
  rw [bind_of_ok (emit _) _ app () rfl]
  simp only [bind_apply, emit_app]
  rw [bind_of_ok (init_window w) _ _ () rfl]
  simp only [bind_apply]
  rw [bind_of_ok _ _ _ () h]
  simp [emit, Ret.prepend, bind_apply]

/-! ## The events of setup and of the idle loop -/

theorem events_pass_mono (p q : Event → Bool) {α : Type} (x : Exec α)
    (hpq : ∀ e, p e = true → q e = true) (hx : events_pass p x) : events_pass q x := by
  intro app
  have h := hx app
  rw [List.all_eq_true] at h ⊢
  exact fun e he => hpq e (h e he)

theorem pick_loop_events_all (p : Event → Bool) (w : World)
    (h1 : p (Event.enter Fn.is_device_suitable) = true)
    (h2 : p (Event.enter Fn.find_queue_families) = true)
    (h3 : ∀ d, p (Event.vkGetPhysicalDeviceQueueFamilyProperties d) = true)
    (devices : List Handle) : (pick_loop_events w devices).all p = true := by
  induction devices with
  | nil => rfl
  | cons d rest ih =>
    cases hg : has_graphics_family w d <;> simp [pick_loop_events, h1, h2, h3, hg]
    simpa using ih

theorem init_window_pass (enable : Bool) (w : World) :
    events_pass (setup_event enable w) (init_window w) := by
  intro app
  rw [init_window_eq]
  simp [setup_event]

theorem create_instance_pass (enable : Bool) (w : World) :
    events_pass (setup_event enable w) (create_instance enable w) := by
  intro app
  cases enable
  · rw [create_instance_off]
    simp [setup_event]
  · rw [create_instance_on]
    cases all_layers_found w.available_layers validation_layers <;> simp [setup_event]

theorem setup_debug_messenger_pass (enable : Bool) (w : World) :
    events_pass (setup_event enable w) (setup_debug_messenger enable w) := by
  intro app
  cases enable
  · rw [setup_debug_messenger_off]
    simp [setup_event]
  · rw [setup_debug_messenger_on]
    cases w.create_resolved <;> simp [setup_event]

theorem pick_physical_device_pass (enable : Bool) (w : World) :
    events_pass (setup_event enable w) (pick_physical_device w) := by
  intro app
  rw [pick_physical_device_eq]
  have hl := pick_loop_events_all (setup_event enable w) w (by simp [setup_event])
    (by simp [setup_event]) (by simp [setup_event]) w.physical_devices
  by_cases hne : w.physical_devices = []
  · simp [hne, setup_event]
  · simp only [if_neg hne, List.all_append, hl, Bool.and_true]
    simp [setup_event]

theorem create_logical_device_pass (enable : Bool) (w : World) :
    events_pass (setup_event enable w) (create_logical_device enable w) := by
  intro app
  rw [create_logical_device_eq]
  cases has_graphics_family w app.physical_device
  · simp [setup_event]
  · by_cases hr : w.create_device_result = VK_SUCCESS <;> simp [setup_event, hr]

theorem init_vulkan_pass (enable : Bool) (w : World) :
    events_pass (setup_event enable w) (init_vulkan enable w) := by
  unfold init_vulkan
  refine events_pass_bind _ _ _ (events_pass_emit _ _ (by simp [setup_event])) (fun _ => ?_)
  refine events_pass_bind _ _ _ (create_instance_pass enable w) (fun _ => ?_)
  refine events_pass_bind _ _ _ (setup_debug_messenger_pass enable w) (fun _ => ?_)
  exact events_pass_bind _ _ _ (pick_physical_device_pass enable w)
    (fun _ => create_logical_device_pass enable w)

theorem main_loop_from_pass (enable : Bool) (w : World) (fuel : Nat) :
    ∀ k, events_pass (setup_event enable w) (main_loop_from w fuel k) := by
  induction fuel with
  | zero => intro k app; rfl
  | succ f ih =>
    intro k
    unfold main_loop_from
    refine events_pass_bind _ _ _ (fun app => rfl) (fun a => ?_)
    refine events_pass_bind _ _ _ (events_pass_emit _ _ (by simp [setup_event])) (fun _ => ?_)
    cases w.should_close k
    · exact events_pass_bind _ _ _ (events_pass_emit _ _ (by simp [setup_event]))
        (fun _ => ih (k + 1))
    · intro app; rfl

theorem main_loop_pass (enable : Bool) (w : World) (fuel : Nat) :
    events_pass (setup_event enable w) (main_loop w fuel) := by
  unfold main_loop
  exact events_pass_bind _ _ _ (events_pass_emit _ _ (by simp [setup_event]))
    (fun _ => main_loop_from_pass enable w fuel 0)

/-! ## A successful setup -/

/-- The member `physical_device` keeps its initializer until
`pick_physical_device` runs: the two earlier steps do not write it. -/
theorem physical_device_before_pick (enable : Bool) (w : World) (app : Application) :
    (create_instance enable w app).app.physical_device = app.physical_device ∧
    (setup_debug_messenger enable w app).app.physical_device = app.physical_device ∧
    (init_window w app).app.physical_device = app.physical_device := by
  refine ⟨?_, ?_, rfl⟩
  · cases enable
    · rw [create_instance_off]; split <;> rfl
    · rw [create_instance_on]; split
      · dsimp only; split <;> rfl
      · rfl
  · cases enable
    · rfl
    · rw [setup_debug_messenger_on]; split <;> rfl

theorem init_vulkan_of_succeeds (enable : Bool) (w : World) (app : Application) (d : Handle)
    (h : setup_succeeds enable w d) :
    init_vulkan enable w app =
      { outcome := Outcome.ok ()
        app :=
          { window := app.window
            vk_instance := w.instance_handle
            debug_messenger := if enable then w.messenger_handle else app.debug_messenger
            physical_device := d
            device := w.device_handle
            graphics_queue := w.queue_handle }
        events := init_vulkan_events enable w d } := by
  obtain ⟨hdiag, hci, hfind, hd, hcd⟩ := h
  have hne : w.physical_devices ≠ [] := by
    intro hnil
    rw [hnil] at hfind
    simp at hfind
  have hg : has_graphics_family w d = true := by
    have := List.find?_some hfind
    simpa using this
  cases enable
  · simp [init_vulkan, bind_apply, Exec.bind, emit, create_instance_off, hci,
      setup_debug_messenger_off, pick_physical_device_eq, hne, picked, hfind, hd,
      create_logical_device_eq, hg, hcd, init_vulkan_events]
  · obtain ⟨hl, hload, hm⟩ := hdiag rfl
    simp [init_vulkan, bind_apply, Exec.bind, emit, create_instance_on, hci, hl,
      setup_debug_messenger_on, hload, hm, pick_physical_device_eq, hne, picked, hfind, hd,
      create_logical_device_eq, hg, hcd, init_vulkan_events]

theorem setup_succeeds_of_ok (enable : Bool) (w : World) (app : Application)
    (h0 : app.physical_device = VK_NULL_HANDLE)
    (hok : (init_vulkan enable w app).outcome = Outcome.ok ()) :
    ∃ d, setup_succeeds enable w d := by
  unfold init_vulkan at hok
  obtain ⟨_, -, h1⟩ := bind_ok_inv _ _ _ _ hok
  rw [emit_app] at h1
  obtain ⟨_, hci, h2⟩ := bind_ok_inv _ _ _ _ h1
  obtain ⟨_, hsd, h3⟩ := bind_ok_inv _ _ _ _ h2
  obtain ⟨_, hpk, hcd⟩ := bind_ok_inv _ _ _ _ h3
  generalize hA : (create_instance enable w app).app = appA at hsd hpk hcd
  generalize hB : (setup_debug_messenger enable w appA).app = appB at hpk hcd
  have hAp : appA.physical_device = VK_NULL_HANDLE := by
    rw [← hA, ← h0]
    exact (physical_device_before_pick enable w app).1
  have hBp : appB.physical_device = VK_NULL_HANDLE := by
    rw [← hB, ← hAp]
    exact (physical_device_before_pick enable w appA).2.1
  -- the device picked
  have hne : w.physical_devices ≠ [] := by
    intro hnil
    rw [pick_physical_device_eq, if_pos hnil] at hpk
    exact absurd hpk (by simp)
  rw [pick_physical_device_eq, if_neg hne] at hpk hcd
  cases hf : w.physical_devices.find? (has_graphics_family w) with
  | none => simp [picked, hf, hBp] at hpk
  | some d =>
    have hd : d ≠ VK_NULL_HANDLE := by
      intro hd0
      simp [picked, hf, hd0] at hpk
    have hres : w.create_device_result = VK_SUCCESS := by
      by_contra hr
      rw [create_logical_device_eq] at hcd
      revert hcd
      dsimp only
      split <;> simp [hr]
    have hinst : w.create_instance_result = VK_SUCCESS := by
      by_contra hr
      cases enable
      · rw [create_instance_off] at hci
        simp [hr] at hci
      · rw [create_instance_on] at hci
        revert hci
        split <;> simp [hr]
    refine ⟨d, ?_, hinst, hf, hd, hres⟩
    intro he
    subst he
    rw [create_instance_on] at hci
    rw [setup_debug_messenger_on] at hsd
    refine ⟨?_, ?_, ?_⟩
    · by_contra hl
      simp [hl] at hci
    · by_contra hl
      simp [hl] at hsd
    · by_contra hm
      revert hsd
      split <;> simp [hm]

theorem main_loop_closes (w : World) (app : Application) (n fuel : Nat)
    (hc : w.should_close n = true) (hf : n < fuel) :
    ∃ m, m ≤ n ∧ main_loop w fuel app =
      { outcome := Outcome.ok (), app := app,
        events := Event.enter Fn.main_loop :: idle_events app.window m } := by
  have hex : ∃ k, w.should_close k = true := ⟨n, hc⟩
  refine ⟨Nat.find hex, Nat.find_min' hex hc, ?_⟩
  have hle : Nat.find hex ≤ n := Nat.find_min' hex hc
  have hloop := main_loop_from_closes w app (Nat.find hex) 0 fuel (by omega)
    (by simpa using Nat.find_spec hex)
    (fun j hj => by
      have := Nat.find_min hex hj
      simpa using this)
  simp only [main_loop, bind_apply]
  rw [bind_of_ok (emit _) _ app () rfl, emit_app, hloop]
  rfl

theorem run_of_succeeds (enable : Bool) (w : World) (d : Handle) (n fuel : Nat)
    (h : setup_succeeds enable w d) (hc : w.should_close n = true) (hf : n < fuel) :
    ∃ m, m ≤ n ∧ run enable w fuel Application.init =
      { outcome := Outcome.ok ()
        app := app_after_setup enable w d
        events := startup_events enable w d ++
          (Event.enter Fn.main_loop :: idle_events w.window m) ++
          cleanup_events enable w (app_after_setup enable w d) } := by
  have hiv := init_vulkan_of_succeeds enable w (init_window w Application.init).app d h
  have happ : (init_vulkan enable w (init_window w Application.init).app).app =
      app_after_setup enable w d := by
    rw [hiv]
    cases enable <;> rfl
  obtain ⟨m, hm, hloop⟩ := main_loop_closes w (app_after_setup enable w d) n fuel hc hf
  refine ⟨m, hm, ?_⟩
  rw [run_of_setup_ok enable w fuel Application.init (by rw [hiv]), happ,
    bind_of_ok (main_loop w fuel) _ _ () (by rw [hloop]), hloop, cleanup_eq, hiv]
  simp [Ret.prepend, startup_events, init_window_eq, app_after_setup]

theorem created_append (xs ys : List Event) :
    created (xs ++ ys) = created xs ++ created ys := by
  induction xs with
  | nil => rfl
  | cons e xs ih => cases e <;> simp [created, ih]

theorem destroyed_append (xs ys : List Event) :
    destroyed (xs ++ ys) = destroyed xs ++ destroyed ys := by
  induction xs with
  | nil => rfl
  | cons e xs ih => cases e <;> simp [destroyed, ih]

theorem created_idle_events (window : Handle) (n : Nat) :
    created (idle_events window n) = [] ∧ destroyed (idle_events window n) = [] := by
  induction n with
  | zero => exact ⟨rfl, rfl⟩
  | succ n ih => simpa [idle_events, created, destroyed] using ih

theorem created_pick_loop_events (w : World) (devices : List Handle) :
    created (pick_loop_events w devices) = [] ∧
      destroyed (pick_loop_events w devices) = [] := by
  induction devices with
  | nil => exact ⟨rfl, rfl⟩
  | cons d rest ih =>
    cases hg : has_graphics_family w d <;>
      simp [pick_loop_events, created, destroyed, hg, ih]

theorem created_startup_events (enable : Bool) (w : World) (d : Handle)
    (hwin : w.window ≠ VK_NULL_HANDLE) :
    created (startup_events enable w d) =
      [Resource.window w.window, Resource.vk_instance w.instance_handle] ++
        (if enable then [Resource.debug_messenger w.messenger_handle] else []) ++
        [Resource.device w.device_handle] ∧
    destroyed (startup_events enable w d) = [] := by
  have hp := created_pick_loop_events w w.physical_devices
  cases enable <;>
    simp [startup_events, init_vulkan_events, created, destroyed, created_append,
      destroyed_append, hp, hwin]

theorem destroyed_cleanup_events (enable : Bool) (w : World) (d : Handle)
    (hl : enable = true → w.destroy_resolved = true) :
    destroyed (cleanup_events enable w (app_after_setup enable w d)) =
      [Resource.device w.device_handle] ++
        (if enable then [Resource.debug_messenger w.messenger_handle] else []) ++
        [Resource.vk_instance w.instance_handle, Resource.window w.window] ∧
    created (cleanup_events enable w (app_after_setup enable w d)) = [] := by
  cases enable
  · simp [cleanup_events, app_after_setup, destroyed, created]
  · simp [cleanup_events, app_after_setup, destroyed, created, hl rfl]

/-! ## Setup always ends -/

theorem bind_not_running {α β : Type} (x : Exec α) (f : α → Exec β)
    (hx : ∀ app, (x app).outcome ≠ Outcome.running)
    (hf : ∀ v app, (f v app).outcome ≠ Outcome.running) (app : Application) :
    ((x >>= f) app).outcome ≠ Outcome.running := by
  rw [bind_apply]
  cases ho : (x app).outcome with
  | ok v => rw [bind_of_ok x f app v ho]; exact hf v _
  | threw what => rw [bind_of_threw x f app what ho]; simp
  | running => exact absurd ho (hx app)

theorem create_instance_returns (enable : Bool) (w : World) (app : Application) :
    (create_instance enable w app).outcome ≠ Outcome.running := by
  cases enable
  · rw [create_instance_off]; dsimp only; split <;> simp
  · rw [create_instance_on]
    cases all_layers_found w.available_layers validation_layers
    · simp
    · simp only [if_true]; split <;> simp

theorem setup_debug_messenger_returns (enable : Bool) (w : World) (app : Application) :
    (setup_debug_messenger enable w app).outcome ≠ Outcome.running := by
  cases enable
  · rw [setup_debug_messenger_off]; simp
  · rw [setup_debug_messenger_on]
    cases w.create_resolved
    · simp
    · simp only [if_true]; split <;> simp

theorem pick_physical_device_returns (w : World) (app : Application) :
    (pick_physical_device w app).outcome ≠ Outcome.running := by
  rw [pick_physical_device_eq]
  by_cases hne : w.physical_devices = []
  · simp [hne]
  · simp only [if_neg hne]; split <;> simp

theorem create_logical_device_returns (enable : Bool) (w : World) (app : Application) :
    (create_logical_device enable w app).outcome ≠ Outcome.running := by
  rw [create_logical_device_eq]
  cases has_graphics_family w app.physical_device
  · simp
  · simp only [if_true]; split <;> simp

/-- The setup sequence always ends, by a return or by a throw. -/
theorem init_vulkan_returns (enable : Bool) (w : World) (app : Application) :
    (init_vulkan enable w app).outcome ≠ Outcome.running := by
  unfold init_vulkan
  refine bind_not_running _ _ (fun a => by simp [emit]) (fun _ => ?_) app
  refine bind_not_running _ _ (create_instance_returns enable w) (fun _ => ?_)
  refine bind_not_running _ _ (setup_debug_messenger_returns enable w) (fun _ => ?_)
  exact bind_not_running _ _ (pick_physical_device_returns w)
    (fun _ => create_logical_device_returns enable w)

/-! ## Facts about every run -/

theorem run_pass (p : Event → Bool) (enable : Bool) (w : World) (fuel : Nat)
    (hp : ∀ e, setup_event enable w e = true → p e = true)
    (hc : events_pass p (cleanup enable w)) : events_pass p (run enable w fuel) := by
  unfold run
  refine events_pass_bind _ _ _
    (events_pass_emit _ _ (hp _ (by simp [setup_event]))) (fun _ => ?_)
  refine events_pass_bind _ _ _
    (events_pass_mono _ _ _ hp (init_window_pass enable w)) (fun _ => ?_)
  refine events_pass_bind _ _ _
    (events_pass_mono _ _ _ hp (init_vulkan_pass enable w)) (fun _ => ?_)
  exact events_pass_bind _ _ _
    (events_pass_mono _ _ _ hp (main_loop_pass enable w fuel)) (fun _ => hc)

theorem stderr_lines_of_all (xs : List Event) (h : xs.all not_cerr = true) :
    stderr_lines xs = [] := by
  induction xs with
  | nil => rfl
  | cons e xs ih =>
    rw [List.all_cons, Bool.and_eq_true] at h
    cases e <;> simp_all [stderr_lines, not_cerr]

theorem stderr_lines_append (xs ys : List Event) :
    stderr_lines (xs ++ ys) = stderr_lines xs ++ stderr_lines ys := by
  induction xs with
  | nil => rfl
  | cons e xs ih => cases e <;> simp [stderr_lines, ih]

theorem run_writes_nothing (enable : Bool) (w : World) (fuel : Nat) (app : Application) :
    stderr_lines (run enable w fuel app).events = [] := by
  apply stderr_lines_of_all
  refine run_pass not_cerr enable w fuel ?_ ?_ app
  · intro e he
    cases e <;> simp_all [setup_event, not_cerr]
  · intro a
    rw [cleanup_eq]
    cases enable <;> cases w.destroy_resolved <;> simp [cleanup_events, not_cerr]

theorem count_cleanup_bind (enable : Bool) (w : World) {α : Type} (x : Exec α)
    (f : α → Exec Unit) (hx : events_pass (setup_event enable w) x)
    (hf : ∀ v app, count_enter Fn.cleanup (f v app).events =
      if (f v app).outcome.is_ok then 1 else 0) (app : Application) :
    count_enter Fn.cleanup ((x >>= f) app).events =
      if ((x >>= f) app).outcome.is_ok then 1 else 0 := by
  have h0 : count_enter Fn.cleanup (x app).events = 0 := by
    apply count_enter_of_all
    have h := hx app
    rw [List.all_eq_true] at h ⊢
    intro e he
    have hs := h e he
    cases e <;> simp_all [setup_event, entering]
  rw [bind_apply]
  cases ho : (x app).outcome with
  | ok v =>
    rw [bind_of_ok x f app v ho]
    simp only [count_enter_append, h0, Nat.zero_add]
    exact hf v (x app).app
  | threw what => rw [bind_of_threw x f app what ho]; simp [h0, Outcome.is_ok]
  | running => rw [bind_of_running x f app ho]; simp [h0, Outcome.is_ok]

theorem count_cleanup_run (enable : Bool) (w : World) (fuel : Nat) (app : Application) :
    count_enter Fn.cleanup (run enable w fuel app).events =
      if (run enable w fuel app).outcome.is_ok then 1 else 0 := by
  unfold run
  refine count_cleanup_bind enable w _ _
    (events_pass_emit _ _ (by simp [setup_event])) (fun _ a1 => ?_) app
  refine count_cleanup_bind enable w _ _ (init_window_pass enable w) (fun _ a2 => ?_) a1
  refine count_cleanup_bind enable w _ _ (init_vulkan_pass enable w) (fun _ a3 => ?_) a2
  refine count_cleanup_bind enable w _ _ (main_loop_pass enable w fuel) (fun _ a4 => ?_) a3
  rw [cleanup_eq]
  cases enable <;> cases w.destroy_resolved <;>
    simp [cleanup_events, count_enter, entering, Outcome.is_ok]

/-! ## The function `main` -/

theorem main_of_ok (enable : Bool) (w : World) (fuel : Nat)
    (h : (run enable w fuel Application.init).outcome = Outcome.ok ()) :
    main enable w fuel =
      { outcome := Outcome.ok EXIT_SUCCESS
        app := (run enable w fuel Application.init).app
        events := (run enable w fuel Application.init).events } := by
  unfold main
  generalize run enable w fuel Application.init = r at h
  obtain ⟨o, a, ev⟩ := r
  simp only at h
  subst h
  rfl

theorem main_of_threw (enable : Bool) (w : World) (fuel : Nat) (what : String)
    (h : (run enable w fuel Application.init).outcome = Outcome.threw what) :
    main enable w fuel =
      { outcome := Outcome.ok EXIT_FAILURE
        app := (run enable w fuel Application.init).app
        events := (run enable w fuel Application.init).events ++ [Event.cerr what] } := by
  unfold main
  generalize run enable w fuel Application.init = r at h
  obtain ⟨o, a, ev⟩ := r
  simp only at h
  subst h
  rfl

theorem main_of_running (enable : Bool) (w : World) (fuel : Nat)
    (h : (run enable w fuel Application.init).outcome = Outcome.running) :
    (main enable w fuel).outcome = Outcome.running := by
  unfold main
  generalize run enable w fuel Application.init = r at h
  obtain ⟨o, a, ev⟩ := r
  simp only at h
  subst h
  rfl

/-! ## Claims on device selection -/

theorem inspected_of_first (w : World) (pre : List Handle) (d : Handle) (post : List Handle)
    (hpre : ∀ x ∈ pre, has_graphics_family w x = false) (hd : has_graphics_family w d = true) :
    inspected w (pre ++ d :: post) = each_twice (pre ++ [d]) := by
  induction pre with
  | nil => simp [inspected, each_twice, hd]
  | cons x pre ih =>
    have hx : has_graphics_family w x = false := hpre x (List.mem_cons_self _ _)
    have ih2 := ih (fun y hy => hpre y (List.mem_cons_of_mem _ hy))
    simp [inspected, each_twice, hx, ih2]

theorem inspected_of_none (w : World) (devices : List Handle)
    (hnone : ∀ x ∈ devices, has_graphics_family w x = false) :
    inspected w devices = each_twice devices := by
  induction devices with
  | nil => rfl
  | cons x rest ih =>
    have hx : has_graphics_family w x = false := hnone x (List.mem_cons_self _ _)
    have ih2 := ih (fun y hy => hnone y (List.mem_cons_of_mem _ hy))
    simp [inspected, each_twice, hx, ih2]

theorem find_of_first (w : World) (pre : List Handle) (d : Handle) (post : List Handle)
    (hpre : ∀ x ∈ pre, has_graphics_family w x = false) (hd : has_graphics_family w d = true) :
    (pre ++ d :: post).find? (has_graphics_family w) = some d := by
  induction pre with
  | nil => simp [List.find?, hd]
  | cons x pre ih =>
    have hx : has_graphics_family w x = false := hpre x (List.mem_cons_self _ _)
    have ih2 := ih (fun y hy => hpre y (List.mem_cons_of_mem _ hy))
    simp [List.find?, hx, ih2]

theorem find_of_none (w : World) (devices : List Handle)
    (hnone : ∀ x ∈ devices, has_graphics_family w x = false) :
    devices.find? (has_graphics_family w) = none := by
  induction devices with
  | nil => rfl
  | cons x rest ih =>
    have hx : has_graphics_family w x = false := hnone x (List.mem_cons_self _ _)
    have ih2 := ih (fun y hy => hnone y (List.mem_cons_of_mem _ hy))
    simp [List.find?, hx, ih2]

theorem queried_pick_physical_device (w : World) (app : Application)
    (hne : w.physical_devices ≠ []) :
    queried_devices (pick_physical_device w app).events = inspected w w.physical_devices := by
  rw [pick_physical_device_eq, if_neg hne]
  simp [queried_devices_append, queried_pick_loop_events, queried_devices]

/-- C1 (as amended): for a non-empty enumeration with non-null handles, called
with `physical_device` still `VK_NULL_HANDLE`, `pick_physical_device` returns
with `physical_device` set to the first device in enumeration order that has a
graphics-capable queue family, having queried exactly the devices up to and
including that one (no later device); when no enumerated device has such a
family it throws "failed to find a suitable GPU!". -/
theorem pick_physical_device_first_suitable (w : World) (app : Application)
    (hne : w.physical_devices ≠ [])
    (hnn : ∀ d ∈ w.physical_devices, d ≠ VK_NULL_HANDLE)
    (h0 : app.physical_device = VK_NULL_HANDLE) :
    (∀ pre d post, w.physical_devices = pre ++ d :: post →
      (∀ x ∈ pre, has_graphics_family w x = false) → has_graphics_family w d = true →
        (pick_physical_device w app).outcome = Outcome.ok () ∧
        (pick_physical_device w app).app.physical_device = d ∧
        queried_devices (pick_physical_device w app).events = each_twice (pre ++ [d])) ∧
    ((∀ x ∈ w.physical_devices, has_graphics_family w x = false) →
        (pick_physical_device w app).outcome = Outcome.threw "failed to find a suitable GPU!" ∧
        (pick_physical_device w app).app.physical_device = VK_NULL_HANDLE ∧
        queried_devices (pick_physical_device w app).events =
          each_twice w.physical_devices) := by
  refine ⟨?_, ?_⟩
  · intro pre d post hsplit hpre hd
    have hq := queried_pick_physical_device w app hne
    have hfind := find_of_first w pre d post hpre hd
    have hdn : d ≠ VK_NULL_HANDLE := hnn d (by rw [hsplit]; simp)
    have hpick : (picked w w.physical_devices app).physical_device = d := by
      simp [picked, hsplit, hfind]
    refine ⟨?_, ?_, ?_⟩
    · rw [pick_physical_device_eq, if_neg hne]
      simp [hpick, hdn]
    · rw [pick_physical_device_eq, if_neg hne]
      exact hpick
    · rw [hq, hsplit]
      exact inspected_of_first w pre d post hpre hd
  · intro hnone
    have hq := queried_pick_physical_device w app hne
    have hfind := find_of_none w w.physical_devices hnone
    have hpick : (picked w w.physical_devices app).physical_device = VK_NULL_HANDLE := by
      simp [picked, hfind, h0]
    refine ⟨?_, ?_, ?_⟩
    · rw [pick_physical_device_eq, if_neg hne]
      simp [hpick]
    · rw [pick_physical_device_eq, if_neg hne]
      exact hpick
    · rw [hq]
      exact inspected_of_none w w.physical_devices hnone

/-- C1, witness: on `host_three` device 22 is picked after devices 21 and 22
were queried; device 23 is not queried. -/
theorem pick_physical_device_first_suitable_witness :
    (pick_physical_device host_three Application.init).outcome = Outcome.ok () ∧
    (pick_physical_device host_three Application.init).app.physical_device = 22 ∧
    queried_devices (pick_physical_device host_three Application.init).events =
      [21, 21, 22, 22] :=
  (pick_physical_device_first_suitable host_three Application.init (by decide) (by decide)
    rfl).1 [21] 22 [23] rfl (by decide) (by decide)

/-- C1, counterexample to the claim as stated: the empty enumeration has all
handles non-null and no device with a graphics family, yet the error thrown is
"failed to find GPUs with Vulkan supports!", not "failed to find a suitable
GPU!". -/
theorem pick_physical_device_empty_enumeration :
    (∀ d ∈ host_no_device.physical_devices, d ≠ VK_NULL_HANDLE) ∧
    (∀ d ∈ host_no_device.physical_devices, has_graphics_family host_no_device d = false) ∧
    (pick_physical_device host_no_device Application.init).outcome =
      Outcome.threw "failed to find GPUs with Vulkan supports!" ∧
    (pick_physical_device host_no_device Application.init).outcome ≠
      Outcome.threw "failed to find a suitable GPU!" := by
  refine ⟨by decide, by decide, rfl, ?_⟩
  rw [show (pick_physical_device host_no_device Application.init).outcome =
      Outcome.threw "failed to find GPUs with Vulkan supports!" from rfl]
  intro h
  injection h with h
  exact absurd h (by decide)

/-- C3: when the enumeration reports zero devices, `pick_physical_device`
throws "failed to find GPUs with Vulkan supports!" after the single counting
call; `find_queue_families` is not entered and no queue-family query is
made. -/
theorem pick_physical_device_no_devices (w : World) (app : Application)
    (h : w.physical_devices = []) :
    (pick_physical_device w app).outcome =
      Outcome.threw "failed to find GPUs with Vulkan supports!" ∧
    (pick_physical_device w app).events =
      [Event.enter Fn.pick_physical_device,
        Event.vkEnumeratePhysicalDevices app.vk_instance] ∧
    count_enter Fn.find_queue_families (pick_physical_device w app).events = 0 ∧
    count_enter Fn.is_device_suitable (pick_physical_device w app).events = 0 ∧
    queried_devices (pick_physical_device w app).events = [] := by
  rw [pick_physical_device_eq, if_pos h]
  simp [count_enter, queried_devices, entering]

/-- C3, witness: the host without devices. -/
theorem pick_physical_device_no_devices_witness :
    (pick_physical_device host_no_device Application.init).outcome =
      Outcome.threw "failed to find GPUs with Vulkan supports!" ∧
    queried_devices (pick_physical_device host_no_device Application.init).events = [] :=
  have h := pick_physical_device_no_devices host_no_device Application.init rfl
  ⟨h.1, h.2.2.2.2⟩

/-- C2 (the code departs from the claim): on device 22 of `host_three`, whose
family 0 has the graphics bit and whose family 1 is transfer-only,
`find_queue_families` yields index 1, which is not the index of a
graphics-capable family (index 0 is); `create_logical_device` then requests a
queue of family 1.  On a device with a single, graphics-capable family the
index 1 names no family at all. -/
theorem find_queue_families_constant_index :
    (find_queue_families host_three 22 Application.init).outcome =
      Outcome.ok { graphics_family := some 1 } ∧
    is_graphics_index (host_three.queue_families 22) 1 = false ∧
    is_graphics_index (host_three.queue_families 22) 0 = true ∧
    (pick_physical_device host_three Application.init).app.physical_device = 22 ∧
    device_queue_requests (create_logical_device true host_three
      (pick_physical_device host_three Application.init).app).events = [[(1, 1)]] ∧
    find_queue_families_loop [{ queueFlags := VK_QUEUE_GRAPHICS_BIT }]
      { graphics_family := none } 0 = { graphics_family := some 1 } ∧
    is_graphics_index [{ queueFlags := VK_QUEUE_GRAPHICS_BIT }] 1 = false := by
  refine ⟨rfl, by decide, by decide, by decide, by decide, by decide, by decide⟩

/-- C10: when `pick_physical_device`, called with `physical_device` still
`VK_NULL_HANDLE`, returns without throwing, the `find_queue_families` call
that `create_logical_device` repeats on the picked device yields a family
index `f`; `create_logical_device` never throws `bad_optional_access`, its
single `vkCreateDevice` call requests one queue of family `f`, and the queue
retrieval that follows a successful creation asks for queue 0 of the same
family `f`. -/
theorem create_logical_device_after_pick (enable : Bool) (w : World) (app : Application)
    (h0 : app.physical_device = VK_NULL_HANDLE)
    (hok : (pick_physical_device w app).outcome = Outcome.ok ()) :
    ∃ f : Nat,
      (find_queue_families w (pick_physical_device w app).app.physical_device
        (pick_physical_device w app).app).outcome = Outcome.ok { graphics_family := some f } ∧
      (create_logical_device enable w (pick_physical_device w app).app).outcome ≠
        Outcome.threw "bad optional access" ∧
      device_queue_requests
        (create_logical_device enable w (pick_physical_device w app).app).events =
          [[(f, 1)]] ∧
      queue_retrievals
        (create_logical_device enable w (pick_physical_device w app).app).events =
          (if w.create_device_result = VK_SUCCESS then [(f, 0)] else []) := by
  have hsuit : has_graphics_family w (pick_physical_device w app).app.physical_device
      = true := by
    rw [pick_physical_device_eq] at hok ⊢
    by_cases hne : w.physical_devices = []
    · simp [hne] at hok
    · simp only [if_neg hne] at hok ⊢
      cases hf : w.physical_devices.find? (has_graphics_family w) with
      | none => simp [picked, hf, h0] at hok
      | some d =>
        have := List.find?_some hf
        simpa [picked, hf] using this
  refine ⟨1, ?_, ?_, ?_, ?_⟩
  · rw [find_queue_families_eq]
    simp [hsuit]
  · rw [create_logical_device_eq]
    by_cases hr : w.create_device_result = VK_SUCCESS <;> simp [hsuit, hr]
  · rw [create_logical_device_eq]
    simp [hsuit, device_queue_requests, device_request]
    by_cases hr : w.create_device_result = VK_SUCCESS <;> simp [hr, device_queue_requests]
  · rw [create_logical_device_eq]
    by_cases hr : w.create_device_result = VK_SUCCESS <;>
      simp [hsuit, hr, queue_retrievals]

/-- C10, witness: the device picked on `host_three`. -/
theorem create_logical_device_after_pick_witness :
    ∃ f : Nat,
      (find_queue_families host_three
        (pick_physical_device host_three Application.init).app.physical_device
        (pick_physical_device host_three Application.init).app).outcome =
          Outcome.ok { graphics_family := some f } ∧
      (create_logical_device true host_three
        (pick_physical_device host_three Application.init).app).outcome ≠
          Outcome.threw "bad optional access" ∧
      device_queue_requests (create_logical_device true host_three
        (pick_physical_device host_three Application.init).app).events = [[(f, 1)]] ∧
      queue_retrievals (create_logical_device true host_three
        (pick_physical_device host_three Application.init).app).events =
          (if host_three.create_device_result = VK_SUCCESS then [(f, 0)] else []) :=
  create_logical_device_after_pick true host_three Application.init rfl rfl

/-! ## Claims on diagnostics -/

/-- C4: `check_validation_layers_support` returns true exactly when every name
of `validation_layers` is, as a C string, the `layerName` of some available
layer; and with diagnostics enabled, when some required name is the name of no
available layer, `create_instance` throws "validation layers requested, but
not available!" without calling `vkCreateInstance` and leaves the members of
the object (so the instance handle) untouched. -/
theorem create_instance_unavailable_layer (w : World) (app : Application) :
    (∃ b : Bool, (check_validation_layers_support w app).outcome = Outcome.ok b ∧
      (b = true ↔
        ∀ name ∈ validation_layers, ∃ lp ∈ w.available_layers, same_name name lp.layerName)) ∧
    ((∃ name ∈ validation_layers, ∀ lp ∈ w.available_layers, ¬ same_name name lp.layerName) →
      (create_instance true w app).outcome =
        Outcome.threw "validation layers requested, but not available!" ∧
      instance_requests (create_instance true w app).events = [] ∧
      (create_instance true w app).app = app) := by
  refine ⟨⟨all_layers_found w.available_layers validation_layers, rfl,
    all_layers_found_iff _ _⟩, ?_⟩
  intro hmiss
  have hno : all_layers_found w.available_layers validation_layers = false := by
    rw [Bool.eq_false_iff]
    intro hall
    obtain ⟨name, hmem, hnot⟩ := hmiss
    obtain ⟨lp, hlp, hsame⟩ := (all_layers_found_iff _ _).1 hall name hmem
    exact hnot lp hlp hsame
  rw [create_instance_on]
  simp [hno, instance_requests]

/-- C4, witness: the host that offers only another layer. -/
theorem create_instance_unavailable_layer_witness :
    (create_instance true host_no_layer Application.init).outcome =
      Outcome.threw "validation layers requested, but not available!" ∧
    instance_requests (create_instance true host_no_layer Application.init).events = [] ∧
    (create_instance true host_no_layer Application.init).app = Application.init :=
  (create_instance_unavailable_layer host_no_layer Application.init).2
    ⟨"VK_LAYER_KHRONOS_validation", by decide, by
      intro lp hlp
      have hl : lp = { layerName := "VK_LAYER_LUNARG_api_dump" } := by
        simpa [host_no_layer] using hlp
      subst hl
      unfold same_name
      decide⟩

/-- C6: with diagnostics enabled, when the lookup of
`vkCreateDebugUtilsMessengerEXT` returns null, `Create_debug_utils_messenger_EXT`
returns `VK_ERROR_EXTENSION_NOT_PRESENT`, `setup_debug_messenger` throws
"failed to set up debug messenger!", and `init_vulkan` (hence `run`) ends by a
throw without entering `pick_physical_device` or `create_logical_device` and
without any `vkCreateDevice` call; after a successful `create_instance` the
error thrown is the one of `setup_debug_messenger`. -/
theorem setup_debug_messenger_unresolved (w : World) (app : Application)
    (h : w.vkGetInstanceProcAddr "vkCreateDebugUtilsMessengerEXT" = false) :
    (∀ inst info, (Create_debug_utils_messenger_EXT w inst info app).outcome =
      Outcome.ok VK_ERROR_EXTENSION_NOT_PRESENT) ∧
    (setup_debug_messenger true w app).outcome =
      Outcome.threw "failed to set up debug messenger!" ∧
    (∃ what, (init_vulkan true w app).outcome = Outcome.threw what) ∧
    ((create_instance true w app).outcome = Outcome.ok () →
      (init_vulkan true w app).outcome =
        Outcome.threw "failed to set up debug messenger!") ∧
    count_enter Fn.pick_physical_device (init_vulkan true w app).events = 0 ∧
    count_enter Fn.create_logical_device (init_vulkan true w app).events = 0 ∧
    device_creation_calls (init_vulkan true w app).events = 0 ∧
    (∀ fuel, ∃ what, (run true w fuel Application.init).outcome = Outcome.threw what ∧
      count_enter Fn.pick_physical_device (run true w fuel Application.init).events = 0 ∧
      count_enter Fn.create_logical_device (run true w fuel Application.init).events = 0 ∧
      device_creation_calls (run true w fuel Application.init).events = 0) := by
  have hl : w.create_resolved = false := by rw [← proc_addr_create]; exact h
  have key : ∀ a : Application,
      (∃ what, (init_vulkan true w a).outcome = Outcome.threw what) ∧
      count_enter Fn.pick_physical_device (init_vulkan true w a).events = 0 ∧
      count_enter Fn.create_logical_device (init_vulkan true w a).events = 0 ∧
      device_creation_calls (init_vulkan true w a).events = 0 := by
    intro a
    rw [init_vulkan_on_unresolved w a hl]
    cases hf : all_layers_found w.available_layers validation_layers
    · simp [count_enter, entering, device_creation_calls, device_queue_requests]
    · by_cases hr : w.create_instance_result = VK_SUCCESS <;>
        simp [hr, count_enter, entering, device_creation_calls, device_queue_requests]
  refine ⟨?_, ?_, (key app).1, ?_, (key app).2.1, (key app).2.2.1, (key app).2.2.2, ?_⟩
  · intro inst info
    rw [Create_debug_utils_messenger_EXT_eq]
    simp [hl]
  · rw [setup_debug_messenger_on]
    simp [hl]
  · intro hci
    rw [create_instance_on] at hci
    rw [init_vulkan_on_unresolved w app hl]
    cases hf : all_layers_found w.available_layers validation_layers
    · simp [hf] at hci
    · by_cases hr : w.create_instance_result = VK_SUCCESS
      · simp [hr]
      · simp [hf, hr] at hci
  · intro fuel
    obtain ⟨⟨what, hw⟩, h1, h2, h3⟩ := key (init_window w Application.init).app
    refine ⟨what, ?_, ?_, ?_, ?_⟩
    · rw [run_of_setup_threw true w fuel Application.init what hw]
    · rw [run_of_setup_threw true w fuel Application.init what hw]
      have hsplit : ∀ xs ys : List Event, count_enter Fn.pick_physical_device
          (Event.enter Fn.run :: (xs ++ ys)) = count_enter Fn.pick_physical_device xs +
            count_enter Fn.pick_physical_device ys := by
        intro xs ys
        simp [count_enter, entering, List.countP_append]
      simp only [hsplit, h1]
      simp [init_window_eq, count_enter, entering]
    · rw [run_of_setup_threw true w fuel Application.init what hw]
      have hsplit : ∀ xs ys : List Event, count_enter Fn.create_logical_device
          (Event.enter Fn.run :: (xs ++ ys)) = count_enter Fn.create_logical_device xs +
            count_enter Fn.create_logical_device ys := by
        intro xs ys
        simp [count_enter, entering, List.countP_append]
      simp only [hsplit, h2]
      simp [init_window_eq, count_enter, entering]
    · rw [run_of_setup_threw true w fuel Application.init what hw]
      have h3n : device_queue_requests
          (init_vulkan true w (init_window w Application.init).app).events = [] :=
        List.length_eq_zero.1 h3
      have hw0 : device_queue_requests (init_window w Application.init).events = [] := rfl
      show (device_queue_requests ((init_window w Application.init).events ++
        (init_vulkan true w (init_window w Application.init).app).events)).length = 0
      rw [device_queue_requests_append, hw0, h3n]
      rfl

/-- C6, witness: the host whose loader does not resolve the debug-utils
commands; instance creation succeeds there, so the error that ends
`init_vulkan` is the one of `setup_debug_messenger`. -/
theorem setup_debug_messenger_unresolved_witness :
    (setup_debug_messenger true host_no_debug_utils Application.init).outcome =
      Outcome.threw "failed to set up debug messenger!" ∧
    (init_vulkan true host_no_debug_utils Application.init).outcome =
      Outcome.threw "failed to set up debug messenger!" ∧
    device_creation_calls (init_vulkan true host_no_debug_utils Application.init).events = 0 :=
  have h := setup_debug_messenger_unresolved host_no_debug_utils Application.init (by decide)
  ⟨h.2.1, h.2.2.2.1 rfl, h.2.2.2.2.2.2.1⟩

/-- C5: in a build without diagnostics, every event of every run is free of
diagnostics: no lookup of, entry into or call of the messenger registration;
every `vkCreateInstance` request has `enabledLayerCount = 0`, no layer names,
`pNext` null and exactly the extensions the window system asks for (the
debug-utils name is not appended); every `vkCreateDevice` request has
`enabledLayerCount = 0`.  The instance request is made in every run,
`setup_debug_messenger` returns at once, and `get_required_extensions`
returns the window system's list unchanged. -/
theorem run_without_diagnostics (w : World) (fuel : Nat) :
    (run false w fuel Application.init).events.all (diagnostics_free w) = true ∧
    Event.vkCreateInstance (instance_request_off w) w.create_instance_result
      w.instance_handle ∈ (run false w fuel Application.init).events ∧
    (instance_request_off w).enabledLayerCount = 0 ∧
    (instance_request_off w).pNext = none ∧
    (instance_request_off w).ppEnabledExtensionNames = w.glfw_extensions ∧
    (∀ family, (device_request false family).enabledLayerCount = 0) ∧
    (∀ app, (setup_debug_messenger false w app).outcome = Outcome.ok () ∧
      (setup_debug_messenger false w app).events = [Event.enter Fn.setup_debug_messenger] ∧
      (setup_debug_messenger false w app).app = app) ∧
    (∀ app, (get_required_extensions false w app).outcome = Outcome.ok w.glfw_extensions) := by
  refine ⟨?_, ?_, rfl, rfl, rfl, fun _ => rfl, fun app => ⟨rfl, rfl, rfl⟩, fun app => rfl⟩
  · refine run_pass (diagnostics_free w) false w fuel ?_ ?_ Application.init
    · intro e he
      cases e <;> simp_all [setup_event, diagnostics_free, instance_request_off, device_request]
    · intro a
      rw [cleanup_eq]
      simp [cleanup_events, diagnostics_free]
  · have hmem : ∀ a, Event.vkCreateInstance (instance_request_off w) w.create_instance_result
        w.instance_handle ∈ (init_vulkan false w a).events := by
      intro a
      unfold init_vulkan
      rw [bind_apply, bind_of_ok (emit _) _ a () rfl, emit_app]
      refine List.mem_append_right _ ?_
      rw [bind_apply]
      cases ho : (create_instance false w a).outcome with
      | ok v =>
        rw [bind_of_ok _ _ a v ho]
        refine List.mem_append_left _ ?_
        rw [create_instance_off]; simp
      | threw what => rw [bind_of_threw _ _ a what ho, create_instance_off]; simp
      | running => rw [bind_of_running _ _ a ho, create_instance_off]; simp
    cases ho : (init_vulkan false w (init_window w Application.init).app).outcome with
    | ok v =>
      rw [run_of_setup_ok false w fuel Application.init ho]
      simp only [Ret.prepend]
      refine List.mem_append_left _ (List.mem_cons_of_mem _ (List.mem_append_right _ ?_))
      exact hmem _
    | threw what =>
      rw [run_of_setup_threw false w fuel Application.init what ho]
      exact List.mem_cons_of_mem _ (List.mem_append_right _ (hmem _))
    | running => exact absurd ho (init_vulkan_returns false w _)

/-! ## Claims on teardown and on the exit code -/

/-- C7 (as amended): in every run in which the window is created, every step
of `init_vulkan` succeeds, the window asks to close and, when diagnostics are
enabled, the lookup of `vkDestroyDebugUtilsMessengerEXT` is non-null, `run`
returns; the resources created are, in order, the window, the instance, the diagnostics
messenger (only when enabled) and the logical device; the resources destroyed
are, in order, the logical device, the messenger (only when enabled), then
the instance and the window, that is the creation sequence reversed; all
creation precedes `cleanup` and all destruction happens in the one call of
`cleanup`. -/
theorem cleanup_reverses_creation (enable : Bool) (w : World) (n fuel : Nat)
    (hwin : w.window ≠ VK_NULL_HANDLE)
    (hsetup : (init_vulkan enable w (init_window w Application.init).app).outcome =
      Outcome.ok ())
    (hclose : w.should_close n = true) (hfuel : n < fuel)
    (hdestroy : enable = true →
      w.vkGetInstanceProcAddr "vkDestroyDebugUtilsMessengerEXT" = true) :
    (run enable w fuel Application.init).outcome = Outcome.ok () ∧
    created (run enable w fuel Application.init).events =
      [Resource.window w.window, Resource.vk_instance w.instance_handle] ++
        (if enable then [Resource.debug_messenger w.messenger_handle] else []) ++
        [Resource.device w.device_handle] ∧
    destroyed (run enable w fuel Application.init).events =
      [Resource.device w.device_handle] ++
        (if enable then [Resource.debug_messenger w.messenger_handle] else []) ++
        [Resource.vk_instance w.instance_handle, Resource.window w.window] ∧
    destroyed (run enable w fuel Application.init).events =
      (created (run enable w fuel Application.init).events).reverse ∧
    count_enter Fn.cleanup (run enable w fuel Application.init).events = 1 ∧
    (∃ before, (run enable w fuel Application.init).events =
        before ++ (cleanup enable w (run enable w fuel Application.init).app).events ∧
      destroyed before = [] ∧
      created (cleanup enable w (run enable w fuel Application.init).app).events = []) := by
  obtain ⟨d, hs⟩ := setup_succeeds_of_ok enable w (init_window w Application.init).app rfl
    hsetup
  obtain ⟨m, -, hrun⟩ := run_of_succeeds enable w d n fuel hs hclose hfuel
  have hl : enable = true → w.destroy_resolved = true := hdestroy
  have hstart := created_startup_events enable w d hwin
  have hidle := created_idle_events w.window m
  have hclean := destroyed_cleanup_events enable w d hl
  have hcreated : created (run enable w fuel Application.init).events =
      [Resource.window w.window, Resource.vk_instance w.instance_handle] ++
        (if enable then [Resource.debug_messenger w.messenger_handle] else []) ++
        [Resource.device w.device_handle] := by
    rw [hrun]
    simp only [created_append, hstart.1, hclean.2, List.append_nil]
    simp [created, hidle.1]
  have hdestroyed : destroyed (run enable w fuel Application.init).events =
      [Resource.device w.device_handle] ++
        (if enable then [Resource.debug_messenger w.messenger_handle] else []) ++
        [Resource.vk_instance w.instance_handle, Resource.window w.window] := by
    rw [hrun]
    simp only [destroyed_append, hstart.2, hclean.1, List.nil_append]
    simp [destroyed, hidle.2]
  refine ⟨by rw [hrun], hcreated, hdestroyed, ?_, ?_, ?_⟩
  · rw [hcreated, hdestroyed]
    cases enable <;> rfl
  · rw [count_cleanup_run, hrun]
    rfl
  · refine ⟨startup_events enable w d ++
      (Event.enter Fn.main_loop :: idle_events w.window m), ?_, ?_, ?_⟩
    · rw [hrun, cleanup_eq]
    · rw [destroyed_append, hstart.2]
      simp [destroyed, hidle.2]
    · rw [hrun, cleanup_eq]
      exact hclean.2

/-- C7, witness: the run on `host_three` with diagnostics enabled. -/
theorem cleanup_reverses_creation_witness :
    created (run true host_three 5 Application.init).events =
      [Resource.window 7, Resource.vk_instance 11, Resource.debug_messenger 13,
        Resource.device 31] ∧
    destroyed (run true host_three 5 Application.init).events =
      [Resource.device 31, Resource.debug_messenger 13, Resource.vk_instance 11,
        Resource.window 7] :=
  have h := cleanup_reverses_creation true host_three 2 5 (by decide) rfl rfl (by decide)
    (fun _ => rfl)
  ⟨h.2.1, h.2.2.1⟩

/-- C7, counterexample to the claim as stated: on `host_no_destroy` every
setup step succeeds with diagnostics enabled and the messenger is created,
but the lookup of `vkDestroyDebugUtilsMessengerEXT` is null, so `cleanup`
skips the messenger: the destroyed sequence is not the creation sequence
reversed. -/
theorem cleanup_skips_unresolved_messenger :
    (init_vulkan true host_no_destroy (init_window host_no_destroy Application.init).app).outcome
      = Outcome.ok () ∧
    (run true host_no_destroy 5 Application.init).outcome = Outcome.ok () ∧
    created (run true host_no_destroy 5 Application.init).events =
      [Resource.window 7, Resource.vk_instance 11, Resource.debug_messenger 13,
        Resource.device 31] ∧
    destroyed (run true host_no_destroy 5 Application.init).events =
      [Resource.device 31, Resource.vk_instance 11, Resource.window 7] ∧
    destroyed (run true host_no_destroy 5 Application.init).events ≠
      (created (run true host_no_destroy 5 Application.init).events).reverse := by
  refine ⟨rfl, rfl, by decide, by decide, by decide⟩

/-- C8 (as amended): `cleanup` is entered exactly once in a run that returns
and not at all in a run that ends by a throw; a run returns when every step of
`init_vulkan` succeeds and the window asks to close, and it ends by a throw,
never reaching `cleanup`, when a step of `init_vulkan` throws. -/
theorem cleanup_once_when_setup_succeeds (enable : Bool) (w : World) (fuel : Nat) :
    count_enter Fn.cleanup (run enable w fuel Application.init).events =
      (if (run enable w fuel Application.init).outcome.is_ok then 1 else 0) ∧
    (∀ n, (init_vulkan enable w (init_window w Application.init).app).outcome =
        Outcome.ok () → w.should_close n = true → n < fuel →
      (run enable w fuel Application.init).outcome = Outcome.ok () ∧
      count_enter Fn.cleanup (run enable w fuel Application.init).events = 1) ∧
    (∀ what, (init_vulkan enable w (init_window w Application.init).app).outcome =
        Outcome.threw what →
      (run enable w fuel Application.init).outcome = Outcome.threw what ∧
      count_enter Fn.cleanup (run enable w fuel Application.init).events = 0) := by
  refine ⟨count_cleanup_run enable w fuel Application.init, ?_, ?_⟩
  · intro n hsetup hclose hfuel
    obtain ⟨d, hs⟩ := setup_succeeds_of_ok enable w (init_window w Application.init).app rfl
      hsetup
    obtain ⟨m, -, hrun⟩ := run_of_succeeds enable w d n fuel hs hclose hfuel
    refine ⟨by rw [hrun], ?_⟩
    rw [count_cleanup_run, hrun]
    rfl
  · intro what hthrew
    have hrun := run_of_setup_threw enable w fuel Application.init what hthrew
    refine ⟨by rw [hrun], ?_⟩
    rw [count_cleanup_run, hrun]
    rfl

/-- C8, witness: one `cleanup` on `host_three`, none on the host without
devices. -/
theorem cleanup_once_when_setup_succeeds_witness :
    ((run true host_three 5 Application.init).outcome = Outcome.ok () ∧
      count_enter Fn.cleanup (run true host_three 5 Application.init).events = 1) ∧
    ((run true host_no_device 5 Application.init).outcome =
        Outcome.threw "failed to find GPUs with Vulkan supports!" ∧
      count_enter Fn.cleanup (run true host_no_device 5 Application.init).events = 0) :=
  ⟨(cleanup_once_when_setup_succeeds true host_three 5).2.1 2 rfl rfl (by decide),
    (cleanup_once_when_setup_succeeds true host_no_device 5).2.2
      "failed to find GPUs with Vulkan supports!" rfl⟩

/-- C8, counterexample to the claim as stated: on the host without devices the
window, the instance and the messenger are created, `pick_physical_device`
throws, and `cleanup` is not entered: nothing is destroyed. -/
theorem cleanup_skipped_after_failed_setup :
    (run true host_no_device 5 Application.init).outcome =
      Outcome.threw "failed to find GPUs with Vulkan supports!" ∧
    created (run true host_no_device 5 Application.init).events =
      [Resource.window 7, Resource.vk_instance 11, Resource.debug_messenger 13] ∧
    count_enter Fn.cleanup (run true host_no_device 5 Application.init).events = 0 ∧
    count_enter Fn.cleanup (run true host_no_device 5 Application.init).events ≠ 1 ∧
    destroyed (run true host_no_device 5 Application.init).events = [] := by
  refine ⟨rfl, by decide, by decide, by decide, by decide⟩

/-- C9: `main` returns `EXIT_SUCCESS` (0) exactly when `run` returns without
a throw and `EXIT_FAILURE` (nonzero) when `run` ends by a throw, in which case
the one line written to `std::cerr` is the message of the exception; a throw
of a step of `init_vulkan` ends `run` with that throw, and a setup in which
every step succeeds, followed by a close request, makes `main` return
`EXIT_SUCCESS` with nothing written. -/
theorem main_exit_code (enable : Bool) (w : World) (fuel : Nat) :
    ((main enable w fuel).outcome = Outcome.ok EXIT_SUCCESS ↔
      (run enable w fuel Application.init).outcome = Outcome.ok ()) ∧
    (∀ what, (run enable w fuel Application.init).outcome = Outcome.threw what →
      (main enable w fuel).outcome = Outcome.ok EXIT_FAILURE ∧
      stderr_lines (main enable w fuel).events = [what]) ∧
    EXIT_FAILURE ≠ 0 ∧ EXIT_SUCCESS = 0 ∧
    (∀ what, (init_vulkan enable w (init_window w Application.init).app).outcome =
        Outcome.threw what →
      (main enable w fuel).outcome = Outcome.ok EXIT_FAILURE ∧
      stderr_lines (main enable w fuel).events = [what]) ∧
    (∀ n, (init_vulkan enable w (init_window w Application.init).app).outcome =
        Outcome.ok () → w.should_close n = true → n < fuel →
      (main enable w fuel).outcome = Outcome.ok EXIT_SUCCESS ∧
      stderr_lines (main enable w fuel).events = []) := by
  have hquiet := run_writes_nothing enable w fuel Application.init
  have hthrew : ∀ what, (run enable w fuel Application.init).outcome = Outcome.threw what →
      (main enable w fuel).outcome = Outcome.ok EXIT_FAILURE ∧
      stderr_lines (main enable w fuel).events = [what] := by
    intro what hw
    rw [main_of_threw enable w fuel what hw]
    refine ⟨rfl, ?_⟩
    show stderr_lines ((run enable w fuel Application.init).events ++ [Event.cerr what]) =
      [what]
    rw [stderr_lines_append, hquiet]
    rfl
  have hok : (run enable w fuel Application.init).outcome = Outcome.ok () →
      (main enable w fuel).outcome = Outcome.ok EXIT_SUCCESS ∧
      stderr_lines (main enable w fuel).events = [] := by
    intro hw
    rw [main_of_ok enable w fuel hw]
    exact ⟨rfl, hquiet⟩
  refine ⟨⟨?_, fun h => (hok h).1⟩, hthrew, by decide, rfl, ?_, ?_⟩
  · intro hm
    cases ho : (run enable w fuel Application.init).outcome with
    | ok v => rfl
    | threw what =>
      rw [(hthrew what ho).1] at hm
      injection hm with hm
      exact absurd hm (by decide)
    | running =>
      rw [main_of_running enable w fuel ho] at hm
      exact absurd hm (by simp)
  · intro what hsetup
    exact hthrew what (by rw [run_of_setup_threw enable w fuel Application.init what hsetup])
  · intro n hsetup hclose hfuel
    obtain ⟨d, hs⟩ := setup_succeeds_of_ok enable w (init_window w Application.init).app rfl
      hsetup
    obtain ⟨m, -, hrun⟩ := run_of_succeeds enable w d n fuel hs hclose hfuel
    exact hok (by rw [hrun])

/-- C9, witness: exit code 1 with the message on `std::cerr` on the host
without devices, exit code 0 on `host_three`. -/
theorem main_exit_code_witness :
    ((main true host_no_device 5).outcome = Outcome.ok EXIT_FAILURE ∧
      stderr_lines (main true host_no_device 5).events =
        ["failed to find GPUs with Vulkan supports!"]) ∧
    ((main true host_three 5).outcome = Outcome.ok EXIT_SUCCESS ∧
      stderr_lines (main true host_three 5).events = []) :=
  ⟨(main_exit_code true host_no_device 5).2.1 "failed to find GPUs with Vulkan supports!" rfl,
    (main_exit_code true host_three 5).2.2.2.2.2 2 rfl rfl (by decide)⟩

end VulkanTri
